import Mathlib

/-!
Shallow embedding of the SkyAsGround engine (ground_engine.py, rectification.py).

Conventions of the embedding:
* degrees, years and day-counts are rationals (the Python floats are decimal
  literals, all arithmetic here is exact);
* instants (datetime values) are rationals measured in days, so
  `timedelta(days = x)` is addition of `x`;
* the Swiss-Ephemeris calls are external oracles (spec section 6) and are
  passed in as function parameters where a definition needs them;
* Python dicts with fixed string keys become association lists or structures.
-/

namespace SkyAsGround

/-- Dual-trigger boundary threshold, `self.HARD_TRIGGER = 0.01` degrees. -/
def HARD_TRIGGER : ℚ := 0.01

/-- Dual-trigger boundary threshold, `self.SOFT_PROXIMITY = 0.5` degrees. -/
def SOFT_PROXIMITY : ℚ := 0.5

/-- The engine's boundary table `self.boundaries`: each entry is a
constellation name with its eastern boundary in ecliptic longitude.
The Pisces entry wraps past 360 and is stored as 389.1. -/
def boundaries : List (String × ℚ) :=
  [("Aries", 29.1),
   ("Taurus", 53.4),
   ("Gemini", 90.1),
   ("Cancer", 118.0),
   ("Leo", 138.1),
   ("Virgo", 173.9),
   ("Libra", 217.8),
   ("Scorpius", 247.1),
   ("Ophiuchus", 265.3),
   ("Sagittarius", 299.7),
   ("Capricornus", 327.9),
   ("Aquarius", 351.6),
   ("Pisces", 389.1)]

/-- The engine's `self.dasha_years` table: period duration in years per arc. -/
def dasha_years : List (String × ℚ) :=
  [("Aries", 9.7),
   ("Taurus", 8.1),
   ("Gemini", 12.2),
   ("Cancer", 9.3),
   ("Leo", 6.7),
   ("Virgo", 11.9),
   ("Libra", 14.6),
   ("Scorpius", 9.8),
   ("Ophiuchus", 6.1),
   ("Sagittarius", 11.5),
   ("Capricornus", 9.4),
   ("Aquarius", 7.9),
   ("Pisces", 12.5)]

/-- Lookup in `dasha_years`; every call site in the source passes one of the
thirteen keys, on which the dict access always succeeds, so the default 0
branch is never taken there. -/
def dasha_years_of (s : String) : ℚ := (dasha_years.lookup s).getD 0

/-- The list `[sign for sign, _ in self.boundaries]`, rebuilt in several
methods of the source. -/
def sign_sequence : List String := boundaries.map Prod.fst

/-- `normalize_longitude`: the two while loops of the source add or subtract
360 until the value lies in `[0, 360)`; on rationals that is exactly
subtraction of `360 * ⌊lon / 360⌋`. -/
def normalize_longitude (lon : ℚ) : ℚ := lon - 360 * ⌊lon / 360⌋

/-- The trigger-status computation duplicated verbatim in both branches of
`get_constellation`: compare `min_dist` against the two thresholds.
The source compares with `<=` in both branches. -/
def status_for (min_dist : ℚ) : String :=
  if min_dist ≤ HARD_TRIGGER then "HARD_TRIGGER"
  else if min_dist ≤ SOFT_PROXIMITY then "SOFT_PROXIMITY"
  else "STABLE"

/-- The scanning loop of `get_constellation`: walk the boundary table
carrying the previous boundary (0.0 before the first entry).  The Pisces
entry has the special wrap handling; every other entry uses the plain
`prev_boundary <= lon < boundary` test.  Falling off the end returns the
default `("Aries", "STABLE", lon)` of the source. -/
def classify_scan (lon : ℚ) : List (String × ℚ) → ℚ → String × String × ℚ
  | [], _ => ("Aries", "STABLE", lon)
  | (sign, boundary) :: rest, prev_boundary =>
    if sign = "Pisces" then
      if prev_boundary ≤ lon ∨ lon < boundary then
        let dist_to_start := min |lon - prev_boundary| |lon - (prev_boundary - 360)|
        let dist_to_end := min |lon - boundary| |lon - (boundary + 360)|
        let min_dist := min dist_to_start dist_to_end
        let degrees_into := if prev_boundary ≤ lon then lon - prev_boundary
                            else (360 - prev_boundary) + lon
        (sign, status_for min_dist, degrees_into)
      else classify_scan lon rest boundary
    else
      if prev_boundary ≤ lon ∧ lon < boundary then
        let dist_to_start := |lon - prev_boundary|
        let dist_to_end := |lon - boundary|
        (sign, status_for (min dist_to_start dist_to_end), lon - prev_boundary)
      else classify_scan lon rest boundary

/-- `get_constellation(lon)`: returns
`(constellation_name, trigger_status, degrees_into_sign)`. -/
def get_constellation (lon : ℚ) : String × String × ℚ :=
  classify_scan (normalize_longitude lon) boundaries 0

/-- Closed-form minimum distance from a longitude in `[0, 360)` to the two
edges of its containing arc, as the boundary table defines the arcs (the
Pisces arc keeps its stored end 389.1).  This is the comparison value that
the trigger-status classification is measured against; it is stated here as
an independent per-arc case split so that the scanning loop can be proved
against it. -/
def min_edge_dist (lon : ℚ) : ℚ :=
  if lon < 29.1 then min lon (29.1 - lon)
  else if lon < 53.4 then min (lon - 29.1) (53.4 - lon)
  else if lon < 90.1 then min (lon - 53.4) (90.1 - lon)
  else if lon < 118.0 then min (lon - 90.1) (118.0 - lon)
  else if lon < 138.1 then min (lon - 118.0) (138.1 - lon)
  else if lon < 173.9 then min (lon - 138.1) (173.9 - lon)
  else if lon < 217.8 then min (lon - 173.9) (217.8 - lon)
  else if lon < 247.1 then min (lon - 217.8) (247.1 - lon)
  else if lon < 265.3 then min (lon - 247.1) (265.3 - lon)
  else if lon < 299.7 then min (lon - 265.3) (299.7 - lon)
  else if lon < 327.9 then min (lon - 299.7) (327.9 - lon)
  else if lon < 351.6 then min (lon - 327.9) (351.6 - lon)
  else min (lon - 351.6) (389.1 - lon)

/-- The twelve boundary points that two consecutive arcs of the table share
(all boundary points except the 0/360 seam between Pisces and Aries). -/
def interior_boundaries : List ℚ := (boundaries.take 12).map Prod.snd

/-- The `self.house_archetypes` dict (twelve entries, keys 1 to 12). -/
def house_archetypes : List (ℕ × String) :=
  [(1, "The Aperture of Identity"),
   (2, "The Ground of Material Integrity"),
   (3, "The Laboratory of Communication"),
   (4, "The Sacred Enclosure"),
   (5, "The Expression of Creative Radiance"),
   (6, "The Refinement of Service"),
   (7, "The Mirror of Relationship"),
   (8, "The Transmutative Laboratory"),
   (9, "The Recognition of Universal Law"),
   (10, "The Crystallization in Public Form"),
   (11, "The Field of Collective Awakening"),
   (12, "The Dissolution into Totality")]

/-- One house record as appended by `calculate_houses`. -/
structure House where
  house_number : ℕ
  ruling_sign : String
  start_longitude : ℚ
  end_longitude : ℚ
  archetype : String
deriving DecidableEq

instance : Inhabited House := ⟨⟨0, "Aries", 0, 0, ""⟩⟩

/-- `calculate_houses(asc_sign, asc_lon)`: whole-sign houses from the
Ascendant constellation.  The loop `for house_num in range(1, 13)` runs
twelve times.  The source catches the `ValueError` of `.index` and falls
back to index 0; `asc_lon` is accepted but unused, as in the source. -/
def calculate_houses (asc_sign : String) (asc_lon : ℚ) : List House :=
  let asc_index := if asc_sign ∈ sign_sequence then sign_sequence.indexOf asc_sign else 0
  (List.range 12).map (fun k =>
    let house_num := k + 1
    let sign_index := (asc_index + house_num - 1) % 13
    let sign_name := sign_sequence.getD sign_index "Aries"
    let sign_end := (boundaries.getD sign_index ("Aries", 0)).2
    let sign_start := if sign_index = 0 then 0 else (boundaries.getD (sign_index - 1) ("Aries", 0)).2
    { house_number := house_num
      ruling_sign := sign_name
      start_longitude := sign_start
      end_longitude := sign_end
      archetype := (house_archetypes.lookup house_num).getD "" })

/-- The longitude span of arc `j` of the boundary table, written the same
way `calculate_houses` reads it: start is the previous boundary (0 for the
first arc), end is the arc's own stored boundary. -/
def arc_span (j : ℕ) : ℚ × ℚ :=
  (if j = 0 then 0 else (boundaries.getD (j - 1) ("Aries", 0)).2,
   (boundaries.getD j ("Aries", 0)).2)

/-- One planetary placement dict of `calculate_chart` (the fields used by
scoring and by the retrograde claims; the formatted DMS string is pure
serialization and is omitted). -/
structure Luminosity where
  longitude : ℚ
  latitude : ℚ
  speed : ℚ
  sign : String
  trigger_status : String
  degrees_into_sign : ℚ
  retrograde : Bool
deriving DecidableEq

/-- The placement built for every directly queried body in
`calculate_chart` (lines 286 to 306): classify the longitude and set
`retrograde = speed < 0`. -/
def chart_placement (lon lat speed : ℚ) : Luminosity :=
  let c := get_constellation lon
  { longitude := lon
    latitude := lat
    speed := speed
    sign := c.1
    trigger_status := c.2.1
    degrees_into_sign := c.2.2
    retrograde := decide (speed < 0) }

/-- The Ketu (south node) placement derived in `calculate_chart` (lines 310
to 326) from the Rahu placement: longitude is Rahu plus 180 normalized,
latitude 0, speed is the negation of Rahu's, and the `retrograde` field is
the literal `False`. -/
def ketu_placement (rahu : Luminosity) : Luminosity :=
  let ketu_lon := normalize_longitude (rahu.longitude + 180)
  let c := get_constellation ketu_lon
  { longitude := ketu_lon
    latitude := 0
    speed := -rahu.speed
    sign := c.1
    trigger_status := c.2.1
    degrees_into_sign := c.2.2
    retrograde := false }

/-- One Maha-Dasha period dict as appended by `build_dasha_sequence`
(the common keys `lord`, `start`, `total_years`, `end`; the birth period's
extra `elapsed_at_birth` / `remaining_at_birth` keys are surfaced through
`calculate_birth_dasha` itself). -/
structure PeriodR where
  lord : String
  start : ℚ
  endDate : ℚ
  total_years : ℚ
deriving DecidableEq

instance : Inhabited PeriodR := ⟨⟨"Aries", 0, 0, 0⟩⟩

/-- The loop `for i in range(1, 13)` of `build_dasha_sequence`: `count`
periods remain, `i` is the loop variable, `cur` is `current_date`. -/
def dasha_tail (start_index : ℕ) : ℕ → ℕ → ℚ → List PeriodR
  | 0, _, _ => []
  | count + 1, i, cur =>
    let sign := sign_sequence.getD ((start_index + i) % 13) "Aries"
    let duration := dasha_years_of sign
    let p : PeriodR := ⟨sign, cur, cur + duration * 365.25, duration⟩
    p :: dasha_tail start_index count (i + 1) p.endDate

/-- `build_dasha_sequence(start_sign, start_date, remaining_years,
elapsed_years)`: the birth period followed by twelve further periods
rotating through the sign sequence.  All call sites pass a `start_sign`
drawn from the sign sequence, on which `.index` succeeds. -/
def build_dasha_sequence (start_sign : String) (start_date remaining_years elapsed_years : ℚ) :
    List PeriodR :=
  let start_index := sign_sequence.indexOf start_sign
  let birth_dasha : PeriodR :=
    ⟨start_sign, start_date, start_date + dasha_years_of start_sign * 365.25,
     dasha_years_of start_sign⟩
  birth_dasha :: dasha_tail start_index 12 1 birth_dasha.endDate

/-- The dict returned by `calculate_birth_dasha`. -/
structure DashaInfo where
  birth_dasha_lord : String
  maha_dasha_start : ℚ
  elapsed_years : ℚ
  remaining_years : ℚ
  sequence : List PeriodR
deriving DecidableEq

/-- `calculate_birth_dasha(moon_lon, ...)`: the birth instant is one
rational (days); the source builds it from year, month, day and hour, which
is pure calendar conversion.  The elapsed fraction of the Moon's period is
recomputed from the boundary table exactly as in the source (lines 482 to
519); note the table always has `sign_start < sign_end`, so the wrap branch
of the source is dead code and the `else` arm below is the one taken. -/
def calculate_birth_dasha (moon_lon : ℚ) (birth_date : ℚ) : DashaInfo :=
  let moon_sign := (get_constellation moon_lon).1
  let moon_index := sign_sequence.indexOf moon_sign
  let sign_start := if moon_index = 0 then 0 else (boundaries.getD (moon_index - 1) ("Aries", 0)).2
  let sign_end := (boundaries.getD moon_index ("Aries", 0)).2
  let sign_arc := if sign_end < sign_start then (360 - sign_start) + sign_end
                  else sign_end - sign_start
  let elapsed_degrees :=
    if sign_end < sign_start then
      (if sign_start ≤ moon_lon then moon_lon - sign_start else (360 - sign_start) + moon_lon)
    else moon_lon - sign_start
  let elapsed_proportion := elapsed_degrees / sign_arc
  let total_years := dasha_years_of moon_sign
  let elapsed_years := total_years * elapsed_proportion
  let remaining_years := total_years - elapsed_years
  let dasha_start := birth_date - elapsed_years * 365.25
  { birth_dasha_lord := moon_sign
    maha_dasha_start := dasha_start
    elapsed_years := elapsed_years
    remaining_years := remaining_years
    sequence := build_dasha_sequence moon_sign dasha_start remaining_years elapsed_years }

/-- One Bhukti dict as appended by `calculate_proportional_bhuktis`. -/
structure BhuktiR where
  lord : String
  start : ℚ
  endDate : ℚ
  duration_days : ℚ
  duration_years : ℚ
deriving DecidableEq

instance : Inhabited BhuktiR := ⟨⟨"Aries", 0, 0, 0, 0⟩⟩

/-- The `for sign in rotated_sequence` loop of
`calculate_proportional_bhuktis`. -/
def bhukti_fold (total_days : ℚ) : List String → ℚ → List BhuktiR
  | [], _ => []
  | sign :: rest, current_date =>
    let sign_proportion := dasha_years_of sign / 120
    let bhukti_days := total_days * sign_proportion
    let end_date := current_date + bhukti_days
    ⟨sign, current_date, end_date, bhukti_days, bhukti_days / 365.25⟩ ::
      bhukti_fold total_days rest end_date

/-- `calculate_proportional_bhuktis(maha_lord, maha_start_date,
maha_duration_years)`: rotate the sign sequence to start with the Maha lord
and subdivide `maha_duration_years * 365.25` days using
`dasha_years[sign] / 120.0` as each proportion.  (The source also computes an
unused local `total_arc`.) -/
def calculate_proportional_bhuktis (maha_lord : String) (maha_start_date : ℚ)
    (maha_duration_years : ℚ) : List BhuktiR :=
  let start_idx := sign_sequence.indexOf maha_lord
  let rotated_sequence := sign_sequence.drop start_idx ++ sign_sequence.take start_idx
  let total_days := maha_duration_years * 365.25
  bhukti_fold total_days rotated_sequence maha_start_date

/-- The result of `get_current_dasha`: either the structured beyond-cycle
dict or the active dict with the found Maha period and the (possibly
absent) found Bhukti. -/
inductive CurrentDasha where
  | beyond_cycle : CurrentDasha
  | active (maha_dasha : PeriodR) (bhukti : Option BhuktiR) (current_date : ℚ) : CurrentDasha
deriving DecidableEq

/-- The first loop of `get_current_dasha`: linear scan with break for the
period containing the date. -/
def find_period (current_date : ℚ) : List PeriodR → Option PeriodR
  | [] => none
  | p :: rest =>
    if p.start ≤ current_date ∧ current_date < p.endDate then some p
    else find_period current_date rest

/-- The second loop of `get_current_dasha`: linear scan with break for the
bhukti containing the date. -/
def find_bhukti (current_date : ℚ) : List BhuktiR → Option BhuktiR
  | [] => none
  | b :: rest =>
    if b.start ≤ current_date ∧ current_date < b.endDate then some b
    else find_bhukti current_date rest

/-- `get_current_dasha(birth_dasha_info, current_date)`.  Every period dict
in the sequence carries a `total_years` key, so the source's
`current_maha.get('total_years', current_maha.get('remaining_at_birth', 0))`
always yields `total_years`. -/
def get_current_dasha (birth_dasha_info : DashaInfo) (current_date : ℚ) : CurrentDasha :=
  match find_period current_date birth_dasha_info.sequence with
  | none => .beyond_cycle
  | some current_maha =>
    let bhuktis := calculate_proportional_bhuktis current_maha.lord current_maha.start
      current_maha.total_years
    .active current_maha (find_bhukti current_date bhuktis) current_date

/-! Rectification scanner (rectification.py). -/

/-- The `self.event_signatures` lookup table of the scanner. -/
def event_signatures : List (String × List String) :=
  [("career_launch", ["Aries", "Leo", "Sagittarius"]),
   ("conflict", ["Aries", "Scorpius"]),
   ("surgery", ["Aries", "Scorpius", "Ophiuchus"]),
   ("competition", ["Aries", "Leo"]),
   ("relationship_start", ["Taurus", "Libra", "Pisces"]),
   ("relationship_end", ["Libra", "Scorpius", "Aquarius"]),
   ("artistic_breakthrough", ["Taurus", "Libra", "Pisces"]),
   ("financial_gain", ["Taurus", "Leo", "Sagittarius"]),
   ("restriction", ["Capricornus", "Aquarius", "Virgo"]),
   ("responsibility", ["Capricornus", "Virgo", "Cancer"]),
   ("financial_reset", ["Capricornus", "Scorpius", "Aquarius"]),
   ("career_setback", ["Capricornus", "Scorpius"]),
   ("disruption", ["Ophiuchus", "Aquarius", "Scorpius"]),
   ("spiritual_awakening", ["Ophiuchus", "Pisces", "Sagittarius"]),
   ("loss", ["Scorpius", "Pisces", "Cancer"]),
   ("radical_change", ["Ophiuchus", "Aquarius", "Aries"]),
   ("education", ["Gemini", "Virgo", "Sagittarius"]),
   ("travel", ["Gemini", "Sagittarius", "Pisces"]),
   ("communication", ["Gemini", "Libra", "Aquarius"]),
   ("writing", ["Gemini", "Virgo", "Pisces"]),
   ("expansion", ["Sagittarius", "Pisces", "Leo"]),
   ("teaching", ["Sagittarius", "Gemini", "Virgo"]),
   ("philosophy", ["Sagittarius", "Aquarius", "Pisces"]),
   ("recognition", ["Leo", "Sagittarius", "Capricornus"]),
   ("home_change", ["Cancer", "Taurus", "Capricornus"]),
   ("emotional_crisis", ["Cancer", "Scorpius", "Pisces"]),
   ("mother_event", ["Cancer", "Virgo", "Pisces"]),
   ("nurturing_role", ["Cancer", "Virgo", "Taurus"]),
   ("healing_crisis", ["Ophiuchus", "Virgo", "Scorpius"]),
   ("identity_realization", ["Ophiuchus", "Leo", "Aquarius"]),
   ("transmutation", ["Ophiuchus", "Scorpius", "Pisces"]),
   ("health_breakthrough", ["Ophiuchus", "Virgo", "Sagittarius"])]

/-- The `self.special_triggers` weights of the scanner. -/
def special_triggers : List (String × ℤ) :=
  [("ophiuchus_mercury", 20), ("sun_boundary", 15), ("moon_boundary", 12),
   ("ascendant_hit", 18)]

/-- Weight lookup in `special_triggers` (all four keys are present). -/
def special_trigger_of (s : String) : ℤ := (special_triggers.lookup s).getD 0

/-- The chart data consumed by the scanner: the luminosities dict, the
optional Ascendant longitude from the angles dict, and the birth-dasha
info.  The remaining chart fields (MC, houses, birth data) are not read by
the scoring code. -/
structure ChartR where
  luminosities : List (String × Luminosity)
  ascendant : Option ℚ
  dasha : DashaInfo
deriving DecidableEq

/-- One life event: the date is an instant in days (the source parses a
date string), the type selects the signature row, intensity defaults to 5
at the call site reading of the source. -/
structure LifeEventR where
  date : ℚ
  type : String
  intensity : ℤ
deriving DecidableEq

/-- The `triggers` dict built by `check_event_transits`: the keys are
exactly `hard`, `soft` and `conjunctions` (there is no `longitude` key). -/
structure TransitTriggers where
  hard : List String
  soft : List String
  conjunctions : List String
deriving DecidableEq

/-- Membership of `needle` as a contiguous sublist of a character list
(the semantics of the Python `in` test on strings). -/
def chars_contain (needle : List Char) : List Char → Bool
  | [] => needle.isEmpty
  | c :: rest => needle.isPrefixOf (c :: rest) || chars_contain needle rest

/-- The Python substring test `needle in hay`. -/
def str_contains (hay needle : String) : Bool := chars_contain needle.data hay.data

/-- `check_event_transits(event_date, natal_chart, ...)` with the transit
longitudes already fetched from the ephemeris oracle: classify every
transiting body, collect hard and soft boundary trigger strings, record
conjunctions within a 2 degree orb against every natal body, and append the
special Ophiuchus-Mercury-conjunct-natal-Moon string to the hard list. -/
def check_event_transits (transit_positions : List (String × ℚ))
    (natal_luminosities : List (String × Luminosity)) : TransitTriggers :=
  transit_positions.foldl (fun triggers pl =>
    let planet_name := pl.1
    let lon := pl.2
    let c := get_constellation lon
    let sign := c.1
    let status := c.2.1
    let triggers :=
      if status = "HARD_TRIGGER" then
        { triggers with hard := triggers.hard ++ [planet_name ++ " at " ++ sign ++ " boundary"] }
      else if status = "SOFT_PROXIMITY" then
        { triggers with soft := triggers.soft ++ [planet_name ++ " near " ++ sign ++ " boundary"] }
      else triggers
    natal_luminosities.foldl (fun triggers nat =>
      let orb0 := |lon - nat.2.longitude|
      let orb := if 180 < orb0 then 360 - orb0 else orb0
      if orb ≤ 2 then
        let triggers := { triggers with conjunctions :=
          triggers.conjunctions ++ ["Transit " ++ planet_name ++ " conjunct Natal " ++ nat.1] }
        if planet_name = "Mercury" ∧ sign = "Ophiuchus" ∧ nat.1 = "Moon" then
          { triggers with hard := triggers.hard ++
            ["⚡ OPHIUCHUS MERCURY CONJUNCT NATAL MOON (Identity Realization)"] }
        else triggers
      else triggers) triggers) ⟨[], [], []⟩

/-- The Ascendant-hit block of `score_candidate` (lines 409 to 417): scan
the hard-trigger strings; award 18 once if a string contains "Ascendant"
or if `asc_lon` is within 1 of `transit_triggers.get('longitude', 999)`.
The triggers dict never holds a `longitude` key, so that lookup is the
constant 999. -/
def ascendant_hit_bonus (asc_lon : ℚ) (transit_triggers : TransitTriggers) : ℤ :=
  if transit_triggers.hard.any
      (fun trigger => str_contains trigger "Ascendant" || decide (|asc_lon - 999| < 1)) then 18
  else 0

/-- The `breakdown` dict of `score_candidate`. -/
structure BreakdownR where
  dasha_correlation : ℤ
  event_type_match : ℤ
  natal_boundaries : ℤ
  transit_boundaries : ℤ
  special_patterns : ℤ
deriving DecidableEq

/-- The result of `score_candidate` (total and breakdown; the `triggers`
and `event_matches` lists are reporting-only accumulators). -/
structure ScoreResult where
  total_score : ℤ
  breakdown : BreakdownR
deriving DecidableEq

/-- The body of the `for event in life_events` loop of `score_candidate`.
`transit_oracle d` returns the transiting longitudes of the tracked bodies
at instant `d` (the ephemeris calls of `check_event_transits`).  In the
source a `current_dasha` that is active but has no containing bhukti would
raise on `current_dasha['bhukti']['lord']`; for engine-built timelines that
case is unreachable (the bhukti list always covers the enclosing period),
and it contributes nothing here. -/
def score_event (chart : ChartR) (transit_oracle : ℚ → List (String × ℚ))
    (acc : ScoreResult) (event : LifeEventR) : ScoreResult :=
  let event_date := event.date
  let event_type := event.type
  let intensity := event.intensity
  let current_dasha := get_current_dasha chart.dasha event_date
  let dashaPart : ℤ × ℤ × ℤ :=  -- (event score so far, dasha_correlation delta, event_type_match delta)
    match current_dasha with
    | .active maha_dasha (some bhukti) _ =>
      let days_from_maha_start := |⌊event_date - maha_dasha.start⌋|
      let days_from_bhukti_start := |⌊event_date - bhukti.start⌋|
      let s1 : ℤ := if days_from_maha_start ≤ 30 then 10 else 0
      let s2 : ℤ := if days_from_bhukti_start ≤ 30 then 10 else 0
      let typePart : ℤ :=
        match event_signatures.lookup event_type with
        | some matching_signs =>
          (if maha_dasha.lord ∈ matching_signs then 5 else 0) +
          (if bhukti.lord ∈ matching_signs then 5 else 0)
        | none => 0
      let base := s1 + s2 + typePart
      let intensityBonus : ℤ := if 8 ≤ intensity ∧ 0 < base then 3 else 0
      (base + intensityBonus, s1 + s2 + intensityBonus, typePart)
    | .active _ none _ => (0, 0, 0)
    | .beyond_cycle => (0, 0, 0)
  let transit_triggers := check_event_transits (transit_oracle event_date) chart.luminosities
  let transitPart : ℤ := 6 * transit_triggers.hard.length + 3 * transit_triggers.soft.length
  let ascPart : ℤ :=
    match chart.ascendant with
    | some asc_lon => ascendant_hit_bonus asc_lon transit_triggers
    | none => 0
  let event_score := dashaPart.1 + transitPart + ascPart
  { total_score := acc.total_score + event_score
    breakdown :=
      { acc.breakdown with
        dasha_correlation := acc.breakdown.dasha_correlation + dashaPart.2.1
        event_type_match := acc.breakdown.event_type_match + dashaPart.2.2
        transit_boundaries := acc.breakdown.transit_boundaries + transitPart
        special_patterns := acc.breakdown.special_patterns + ascPart } }

/-- The natal-pattern prelude of `score_candidate`: boundary bonuses for
every luminosity, then the Mercury-in-Ophiuchus, Sun-at-boundary and
Moon-at-boundary specials. -/
def score_candidate (chart : ChartR) (life_events : List LifeEventR)
    (transit_oracle : ℚ → List (String × ℚ)) : ScoreResult :=
  let natal_boundaries : ℤ := chart.luminosities.foldl
    (fun acc pd =>
      if pd.2.trigger_status = "HARD_TRIGGER" then acc + 8
      else if pd.2.trigger_status = "SOFT_PROXIMITY" then acc + 4
      else acc) 0
  let merc : ℤ :=
    match chart.luminosities.lookup "Mercury" with
    | some m => if m.sign = "Ophiuchus" then special_trigger_of "ophiuchus_mercury" else 0
    | none => 0
  let sunB : ℤ :=
    match chart.luminosities.lookup "Sun" with
    | some s =>
      if s.trigger_status = "HARD_TRIGGER" ∨ s.trigger_status = "SOFT_PROXIMITY" then
        special_trigger_of "sun_boundary"
      else 0
    | none => 0
  let moonB : ℤ :=
    match chart.luminosities.lookup "Moon" with
    | some m =>
      if m.trigger_status = "HARD_TRIGGER" ∨ m.trigger_status = "SOFT_PROXIMITY" then
        special_trigger_of "moon_boundary"
      else 0
    | none => 0
  let special_patterns := merc + sunB + moonB
  let base : ScoreResult :=
    { total_score := natal_boundaries + special_patterns
      breakdown :=
        { dasha_correlation := 0
          event_type_match := 0
          natal_boundaries := natal_boundaries
          transit_boundaries := 0
          special_patterns := special_patterns } }
  life_events.foldl (score_event chart transit_oracle) base

/-- The natal-only contribution of a chart to a candidate score, written
from the spec wording (section 4.4): 8 per hard natal trigger, 4 per soft
natal trigger, 20 for Mercury in Ophiuchus, 15 for the Sun at a boundary,
12 for the Moon at a boundary. -/
def natal_contribution (chart : ChartR) : ℤ :=
  8 * (chart.luminosities.countP (fun pd => decide (pd.2.trigger_status = "HARD_TRIGGER"))) +
  4 * (chart.luminosities.countP (fun pd => decide (pd.2.trigger_status = "SOFT_PROXIMITY"))) +
  (match chart.luminosities.lookup "Mercury" with
   | some m => if m.sign = "Ophiuchus" then 20 else 0
   | none => 0) +
  (match chart.luminosities.lookup "Sun" with
   | some s =>
     if s.trigger_status = "HARD_TRIGGER" ∨ s.trigger_status = "SOFT_PROXIMITY" then 15 else 0
   | none => 0) +
  (match chart.luminosities.lookup "Moon" with
   | some m =>
     if m.trigger_status = "HARD_TRIGGER" ∨ m.trigger_status = "SOFT_PROXIMITY" then 12 else 0
   | none => 0)

/-- One candidate dict appended by `scan_window`. -/
structure CandidateR where
  time_utc : ℚ
  day : ℤ
  score : ℤ
  chart : ChartR
  scoring_breakdown : BreakdownR
deriving DecidableEq

/-- The midnight wrap adjustment at the top of the scan loop: days are
abstract integers (calendar conversion is external), and for a time already
in `[0, 24)` the source's `current_time % 24` is the identity. -/
def scan_adjust (birth_day : ℤ) (current_time : ℚ) : ℤ × ℚ :=
  if current_time < 0 then (birth_day - 1, 24 + current_time)
  else if 24 ≤ current_time then (birth_day + 1, current_time - 24)
  else (birth_day, current_time)

/-- The `while current_time <= end_time` loop emitting the scanned
instants.  The fuel argument bounds the recursion; `scan_times` passes
exactly the number of iterations the loop performs, so the fueled
recursion coincides with the unbounded source loop. -/
def scan_emit (end_time step_hours : ℚ) : ℕ → ℚ → List ℚ
  | 0, _ => []
  | fuel + 1, current_time =>
    if current_time ≤ end_time then
      current_time :: scan_emit end_time step_hours fuel (current_time + step_hours)
    else []

/-- The scanned instants of `scan_window`: for a positive step the loop
runs `⌊(end_time - start_time) / step⌋ + 1` times when `start ≤ end`. -/
def scan_times (start_time end_time step_hours : ℚ) : List ℚ :=
  scan_emit end_time step_hours
    (if 0 < step_hours then (⌊(end_time - start_time) / step_hours⌋ + 1).toNat else 0)
    start_time

/-- `scan_window`: enumerate the window, build and score a chart per
instant (`calc_chart day hour` abstracts `calculate_chart`, whose ephemeris
calls are external), and stable-sort by score descending.  `List.mergeSort`
is stable, like the Python `sort`. -/
def scan_window (calc_chart : ℤ → ℚ → ChartR) (transit_oracle : ℚ → List (String × ℚ))
    (birth_day : ℤ) (approx_time_utc : ℚ) (life_events : List LifeEventR)
    (window_hours : ℚ) (step_minutes : ℚ) : List CandidateR :=
  let start_time := approx_time_utc - window_hours
  let end_time := approx_time_utc + window_hours
  let step_hours := step_minutes / 60
  let times := scan_times start_time end_time step_hours
  let candidates := times.map (fun current_time =>
    let dt := scan_adjust birth_day current_time
    let chart := calc_chart dt.1 dt.2
    let score_result := score_candidate chart life_events transit_oracle
    { time_utc := dt.2
      day := dt.1
      score := score_result.total_score
      chart := chart
      scoring_breakdown := score_result.breakdown })
  candidates.mergeSort (fun a b => decide (b.score ≤ a.score))

/-! Witness fixtures: a trivially valid chart and oracles, used only to
instantiate quantified theorems at concrete inputs. -/

/-- A dasha info with an empty sequence, for witness charts. -/
def trivial_dasha : DashaInfo := ⟨"Aries", 0, 0, 0, []⟩

/-- A chart with no luminosities and no Ascendant. -/
def trivial_chart : ChartR := ⟨[], none, trivial_dasha⟩

/-- A chart builder oracle returning the trivial chart everywhere. -/
def trivial_calc_chart : ℤ → ℚ → ChartR := fun _ _ => trivial_chart

/-- A transit oracle returning no bodies. -/
def trivial_transit_oracle : ℚ → List (String × ℚ) := fun _ => []

/-! Classification lemmas: the scanning loop evaluated on each arc. -/

lemma normalize_longitude_id (lon : ℚ) (h0 : 0 ≤ lon) (h1 : lon < 360) :
    normalize_longitude lon = lon := by
  unfold normalize_longitude
  have hf : ⌊lon / 360⌋ = 0 := by
    rw [Int.floor_eq_zero_iff]
    constructor
    · positivity
    · rw [div_lt_one (by norm_num)]; linarith
  rw [hf]; push_cast; ring

lemma classify_scan_cons (lon : ℚ) (sign : String) (boundary : ℚ)
    (rest : List (String × ℚ)) (prev_boundary : ℚ) :
    classify_scan lon ((sign, boundary) :: rest) prev_boundary =
      if sign = "Pisces" then
        (if prev_boundary ≤ lon ∨ lon < boundary then
          (sign, status_for (min (min |lon - prev_boundary| |lon - (prev_boundary - 360)|)
            (min |lon - boundary| |lon - (boundary + 360)|)),
            if prev_boundary ≤ lon then lon - prev_boundary else (360 - prev_boundary) + lon)
        else classify_scan lon rest boundary)
      else
        (if prev_boundary ≤ lon ∧ lon < boundary then
          (sign, status_for (min |lon - prev_boundary| |lon - boundary|), lon - prev_boundary)
        else classify_scan lon rest boundary) := rfl

lemma classify_scan_skip {lon prev_boundary boundary : ℚ} {sign : String}
    {rest : List (String × ℚ)} (hs : ¬sign = "Pisces")
    (h : ¬(prev_boundary ≤ lon ∧ lon < boundary)) :
    classify_scan lon ((sign, boundary) :: rest) prev_boundary =
      classify_scan lon rest boundary := by
  rw [classify_scan_cons, if_neg hs, if_neg h]

lemma classify_scan_hit {lon prev_boundary boundary : ℚ} {sign : String}
    {rest : List (String × ℚ)} (hs : ¬sign = "Pisces")
    (h : prev_boundary ≤ lon ∧ lon < boundary) :
    classify_scan lon ((sign, boundary) :: rest) prev_boundary =
      (sign, status_for (min |lon - prev_boundary| |lon - boundary|), lon - prev_boundary) := by
  rw [classify_scan_cons, if_neg hs, if_pos h]

lemma gc_aries (lon : ℚ) (h0 : 0 ≤ lon) (hhi : lon < 29.1) :
    get_constellation lon = ("Aries", status_for (min lon (29.1 - lon)), lon) := by
  have hn : normalize_longitude lon = lon := normalize_longitude_id lon h0 (by linarith)
  unfold get_constellation boundaries
  rw [hn, classify_scan_hit (by decide) ⟨h0, hhi⟩, sub_zero,
    abs_of_nonneg h0, abs_of_nonpos (by linarith : lon - 29.1 ≤ 0), neg_sub]

lemma gc_taurus (lon : ℚ) (hlo : 29.1 ≤ lon) (hhi : lon < 53.4) :
    get_constellation lon = ("Taurus", status_for (min (lon - 29.1) (53.4 - lon)), lon - 29.1) := by
  have hn : normalize_longitude lon = lon := normalize_longitude_id lon (by linarith) (by linarith)
  unfold get_constellation boundaries
  rw [hn, classify_scan_skip (by decide) (fun hh => absurd hh.2 (by linarith)),
    classify_scan_hit (by decide) ⟨hlo, hhi⟩,
    abs_of_nonneg (by linarith : (0:ℚ) ≤ lon - 29.1),
    abs_of_nonpos (by linarith : lon - 53.4 ≤ 0), neg_sub]

lemma gc_gemini (lon : ℚ) (hlo : 53.4 ≤ lon) (hhi : lon < 90.1) :
    get_constellation lon = ("Gemini", status_for (min (lon - 53.4) (90.1 - lon)), lon - 53.4) := by
  have hn : normalize_longitude lon = lon := normalize_longitude_id lon (by linarith) (by linarith)
  unfold get_constellation boundaries
  rw [hn, classify_scan_skip (by decide) (fun hh => absurd hh.2 (by linarith)),
    classify_scan_skip (by decide) (fun hh => absurd hh.2 (by linarith)),
    classify_scan_hit (by decide) ⟨hlo, hhi⟩,
    abs_of_nonneg (by linarith : (0:ℚ) ≤ lon - 53.4),
    abs_of_nonpos (by linarith : lon - 90.1 ≤ 0), neg_sub]

lemma gc_cancer (lon : ℚ) (hlo : 90.1 ≤ lon) (hhi : lon < 118.0) :
    get_constellation lon = ("Cancer", status_for (min (lon - 90.1) (118.0 - lon)), lon - 90.1) := by
  have hn : normalize_longitude lon = lon := normalize_longitude_id lon (by linarith) (by linarith)
  unfold get_constellation boundaries
  rw [hn, classify_scan_skip (by decide) (fun hh => absurd hh.2 (by linarith)),
    classify_scan_skip (by decide) (fun hh => absurd hh.2 (by linarith)),
    classify_scan_skip (by decide) (fun hh => absurd hh.2 (by linarith)),
    classify_scan_hit (by decide) ⟨hlo, hhi⟩,
    abs_of_nonneg (by linarith : (0:ℚ) ≤ lon - 90.1),
    abs_of_nonpos (by linarith : lon - 118.0 ≤ 0), neg_sub]

lemma gc_leo (lon : ℚ) (hlo : 118.0 ≤ lon) (hhi : lon < 138.1) :
    get_constellation lon = ("Leo", status_for (min (lon - 118.0) (138.1 - lon)), lon - 118.0) := by
  have hn : normalize_longitude lon = lon := normalize_longitude_id lon (by linarith) (by linarith)
  unfold get_constellation boundaries
  rw [hn, classify_scan_skip (by decide) (fun hh => absurd hh.2 (by linarith)),
    classify_scan_skip (by decide) (fun hh => absurd hh.2 (by linarith)),
    classify_scan_skip (by decide) (fun hh => absurd hh.2 (by linarith)),
    classify_scan_skip (by decide) (fun hh => absurd hh.2 (by linarith)),
    classify_scan_hit (by decide) ⟨hlo, hhi⟩,
    abs_of_nonneg (by linarith : (0:ℚ) ≤ lon - 118.0),
    abs_of_nonpos (by linarith : lon - 138.1 ≤ 0), neg_sub]

lemma gc_virgo (lon : ℚ) (hlo : 138.1 ≤ lon) (hhi : lon < 173.9) :
    get_constellation lon = ("Virgo", status_for (min (lon - 138.1) (173.9 - lon)), lon - 138.1) := by
  have hn : normalize_longitude lon = lon := normalize_longitude_id lon (by linarith) (by linarith)
  unfold get_constellation boundaries
  rw [hn, classify_scan_skip (by decide) (fun hh => absurd hh.2 (by linarith)),
    classify_scan_skip (by decide) (fun hh => absurd hh.2 (by linarith)),
    classify_scan_skip (by decide) (fun hh => absurd hh.2 (by linarith)),
    classify_scan_skip (by decide) (fun hh => absurd hh.2 (by linarith)),
    classify_scan_skip (by decide) (fun hh => absurd hh.2 (by linarith)),
    classify_scan_hit (by decide) ⟨hlo, hhi⟩,
    abs_of_nonneg (by linarith : (0:ℚ) ≤ lon - 138.1),
    abs_of_nonpos (by linarith : lon - 173.9 ≤ 0), neg_sub]

lemma gc_libra (lon : ℚ) (hlo : 173.9 ≤ lon) (hhi : lon < 217.8) :
    get_constellation lon = ("Libra", status_for (min (lon - 173.9) (217.8 - lon)), lon - 173.9) := by
  have hn : normalize_longitude lon = lon := normalize_longitude_id lon (by linarith) (by linarith)
  unfold get_constellation boundaries
  rw [hn, classify_scan_skip (by decide) (fun hh => absurd hh.2 (by linarith)),
    classify_scan_skip (by decide) (fun hh => absurd hh.2 (by linarith)),
    classify_scan_skip (by decide) (fun hh => absurd hh.2 (by linarith)),
    classify_scan_skip (by decide) (fun hh => absurd hh.2 (by linarith)),
    classify_scan_skip (by decide) (fun hh => absurd hh.2 (by linarith)),
    classify_scan_skip (by decide) (fun hh => absurd hh.2 (by linarith)),
    classify_scan_hit (by decide) ⟨hlo, hhi⟩,
    abs_of_nonneg (by linarith : (0:ℚ) ≤ lon - 173.9),
    abs_of_nonpos (by linarith : lon - 217.8 ≤ 0), neg_sub]

lemma gc_scorpius (lon : ℚ) (hlo : 217.8 ≤ lon) (hhi : lon < 247.1) :
    get_constellation lon =
      ("Scorpius", status_for (min (lon - 217.8) (247.1 - lon)), lon - 217.8) := by
  have hn : normalize_longitude lon = lon := normalize_longitude_id lon (by linarith) (by linarith)
  unfold get_constellation boundaries
  rw [hn, classify_scan_skip (by decide) (fun hh => absurd hh.2 (by linarith)),
    classify_scan_skip (by decide) (fun hh => absurd hh.2 (by linarith)),
    classify_scan_skip (by decide) (fun hh => absurd hh.2 (by linarith)),
    classify_scan_skip (by decide) (fun hh => absurd hh.2 (by linarith)),
    classify_scan_skip (by decide) (fun hh => absurd hh.2 (by linarith)),
    classify_scan_skip (by decide) (fun hh => absurd hh.2 (by linarith)),
    classify_scan_skip (by decide) (fun hh => absurd hh.2 (by linarith)),
    classify_scan_hit (by decide) ⟨hlo, hhi⟩,
    abs_of_nonneg (by linarith : (0:ℚ) ≤ lon - 217.8),
    abs_of_nonpos (by linarith : lon - 247.1 ≤ 0), neg_sub]

lemma gc_ophiuchus (lon : ℚ) (hlo : 247.1 ≤ lon) (hhi : lon < 265.3) :
    get_constellation lon =
      ("Ophiuchus", status_for (min (lon - 247.1) (265.3 - lon)), lon - 247.1) := by
  have hn : normalize_longitude lon = lon := normalize_longitude_id lon (by linarith) (by linarith)
  unfold get_constellation boundaries
  rw [hn, classify_scan_skip (by decide) (fun hh => absurd hh.2 (by linarith)),
    classify_scan_skip (by decide) (fun hh => absurd hh.2 (by linarith)),
    classify_scan_skip (by decide) (fun hh => absurd hh.2 (by linarith)),
    classify_scan_skip (by decide) (fun hh => absurd hh.2 (by linarith)),
    classify_scan_skip (by decide) (fun hh => absurd hh.2 (by linarith)),
    classify_scan_skip (by decide) (fun hh => absurd hh.2 (by linarith)),
    classify_scan_skip (by decide) (fun hh => absurd hh.2 (by linarith)),
    classify_scan_skip (by decide) (fun hh => absurd hh.2 (by linarith)),
    classify_scan_hit (by decide) ⟨hlo, hhi⟩,
    abs_of_nonneg (by linarith : (0:ℚ) ≤ lon - 247.1),
    abs_of_nonpos (by linarith : lon - 265.3 ≤ 0), neg_sub]

lemma gc_sagittarius (lon : ℚ) (hlo : 265.3 ≤ lon) (hhi : lon < 299.7) :
    get_constellation lon =
      ("Sagittarius", status_for (min (lon - 265.3) (299.7 - lon)), lon - 265.3) := by
  have hn : normalize_longitude lon = lon := normalize_longitude_id lon (by linarith) (by linarith)
  unfold get_constellation boundaries
  rw [hn, classify_scan_skip (by decide) (fun hh => absurd hh.2 (by linarith)),
    classify_scan_skip (by decide) (fun hh => absurd hh.2 (by linarith)),
    classify_scan_skip (by decide) (fun hh => absurd hh.2 (by linarith)),
    classify_scan_skip (by decide) (fun hh => absurd hh.2 (by linarith)),
    classify_scan_skip (by decide) (fun hh => absurd hh.2 (by linarith)),
    classify_scan_skip (by decide) (fun hh => absurd hh.2 (by linarith)),
    classify_scan_skip (by decide) (fun hh => absurd hh.2 (by linarith)),
    classify_scan_skip (by decide) (fun hh => absurd hh.2 (by linarith)),
    classify_scan_skip (by decide) (fun hh => absurd hh.2 (by linarith)),
    classify_scan_hit (by decide) ⟨hlo, hhi⟩,
    abs_of_nonneg (by linarith : (0:ℚ) ≤ lon - 265.3),
    abs_of_nonpos (by linarith : lon - 299.7 ≤ 0), neg_sub]

lemma gc_capricornus (lon : ℚ) (hlo : 299.7 ≤ lon) (hhi : lon < 327.9) :
    get_constellation lon =
      ("Capricornus", status_for (min (lon - 299.7) (327.9 - lon)), lon - 299.7) := by
  have hn : normalize_longitude lon = lon := normalize_longitude_id lon (by linarith) (by linarith)
  unfold get_constellation boundaries
  rw [hn, classify_scan_skip (by decide) (fun hh => absurd hh.2 (by linarith)),
    classify_scan_skip (by decide) (fun hh => absurd hh.2 (by linarith)),
    classify_scan_skip (by decide) (fun hh => absurd hh.2 (by linarith)),
    classify_scan_skip (by decide) (fun hh => absurd hh.2 (by linarith)),
    classify_scan_skip (by decide) (fun hh => absurd hh.2 (by linarith)),
    classify_scan_skip (by decide) (fun hh => absurd hh.2 (by linarith)),
    classify_scan_skip (by decide) (fun hh => absurd hh.2 (by linarith)),
    classify_scan_skip (by decide) (fun hh => absurd hh.2 (by linarith)),
    classify_scan_skip (by decide) (fun hh => absurd hh.2 (by linarith)),
    classify_scan_skip (by decide) (fun hh => absurd hh.2 (by linarith)),
    classify_scan_hit (by decide) ⟨hlo, hhi⟩,
    abs_of_nonneg (by linarith : (0:ℚ) ≤ lon - 299.7),
    abs_of_nonpos (by linarith : lon - 327.9 ≤ 0), neg_sub]

lemma gc_aquarius (lon : ℚ) (hlo : 327.9 ≤ lon) (hhi : lon < 351.6) :
    get_constellation lon =
      ("Aquarius", status_for (min (lon - 327.9) (351.6 - lon)), lon - 327.9) := by
  have hn : normalize_longitude lon = lon := normalize_longitude_id lon (by linarith) (by linarith)
  unfold get_constellation boundaries
  rw [hn, classify_scan_skip (by decide) (fun hh => absurd hh.2 (by linarith)),
    classify_scan_skip (by decide) (fun hh => absurd hh.2 (by linarith)),
    classify_scan_skip (by decide) (fun hh => absurd hh.2 (by linarith)),
    classify_scan_skip (by decide) (fun hh => absurd hh.2 (by linarith)),
    classify_scan_skip (by decide) (fun hh => absurd hh.2 (by linarith)),
    classify_scan_skip (by decide) (fun hh => absurd hh.2 (by linarith)),
    classify_scan_skip (by decide) (fun hh => absurd hh.2 (by linarith)),
    classify_scan_skip (by decide) (fun hh => absurd hh.2 (by linarith)),
    classify_scan_skip (by decide) (fun hh => absurd hh.2 (by linarith)),
    classify_scan_skip (by decide) (fun hh => absurd hh.2 (by linarith)),
    classify_scan_skip (by decide) (fun hh => absurd hh.2 (by linarith)),
    classify_scan_hit (by decide) ⟨hlo, hhi⟩,
    abs_of_nonneg (by linarith : (0:ℚ) ≤ lon - 327.9),
    abs_of_nonpos (by linarith : lon - 351.6 ≤ 0), neg_sub]

lemma gc_pisces (lon : ℚ) (hlo : 351.6 ≤ lon) (hhi : lon < 360) :
    get_constellation lon =
      ("Pisces", status_for (min (lon - 351.6) (389.1 - lon)), lon - 351.6) := by
  have hn : normalize_longitude lon = lon := normalize_longitude_id lon (by linarith) (by linarith)
  unfold get_constellation boundaries
  rw [hn, classify_scan_skip (by decide) (fun hh => absurd hh.2 (by linarith)),
    classify_scan_skip (by decide) (fun hh => absurd hh.2 (by linarith)),
    classify_scan_skip (by decide) (fun hh => absurd hh.2 (by linarith)),
    classify_scan_skip (by decide) (fun hh => absurd hh.2 (by linarith)),
    classify_scan_skip (by decide) (fun hh => absurd hh.2 (by linarith)),
    classify_scan_skip (by decide) (fun hh => absurd hh.2 (by linarith)),
    classify_scan_skip (by decide) (fun hh => absurd hh.2 (by linarith)),
    classify_scan_skip (by decide) (fun hh => absurd hh.2 (by linarith)),
    classify_scan_skip (by decide) (fun hh => absurd hh.2 (by linarith)),
    classify_scan_skip (by decide) (fun hh => absurd hh.2 (by linarith)),
    classify_scan_skip (by decide) (fun hh => absurd hh.2 (by linarith)),
    classify_scan_skip (by decide) (fun hh => absurd hh.2 (by linarith)),
    classify_scan_cons, if_pos rfl, if_pos (Or.inl hlo), if_pos hlo,
    abs_of_nonneg (by linarith : (0:ℚ) ≤ lon - 351.6),
    abs_of_nonneg (by linarith : (0:ℚ) ≤ lon - (351.6 - 360)),
    abs_of_nonpos (by linarith : lon - 389.1 ≤ 0), neg_sub,
    abs_of_nonpos (by linarith : lon - (389.1 + 360) ≤ 0), neg_sub,
    min_eq_left (by linarith : lon - 351.6 ≤ lon - (351.6 - 360)),
    min_eq_left (by linarith : 389.1 - lon ≤ 389.1 + 360 - lon)]

/-- For every longitude in `[0, 360)` the trigger status produced by the
scanning loop equals the threshold classification of the closed-form
minimum edge distance. -/
lemma trigger_status_eq_min_edge (lon : ℚ) (h0 : 0 ≤ lon) (h1 : lon < 360) :
    (get_constellation lon).2.1 = status_for (min_edge_dist lon) := by
  unfold min_edge_dist
  rcases lt_or_le lon 29.1 with h | h
  · rw [gc_aries lon h0 h, if_pos h]
  rw [if_neg (not_lt.mpr h)]
  rcases lt_or_le lon 53.4 with h' | h'
  · rw [gc_taurus lon h h', if_pos h']
  rw [if_neg (not_lt.mpr h')]
  rcases lt_or_le lon 90.1 with h'' | h''
  · rw [gc_gemini lon h' h'', if_pos h'']
  rw [if_neg (not_lt.mpr h'')]
  rcases lt_or_le lon 118.0 with h3 | h3
  · rw [gc_cancer lon h'' h3, if_pos h3]
  rw [if_neg (not_lt.mpr h3)]
  rcases lt_or_le lon 138.1 with h4 | h4
  · rw [gc_leo lon h3 h4, if_pos h4]
  rw [if_neg (not_lt.mpr h4)]
  rcases lt_or_le lon 173.9 with h5 | h5
  · rw [gc_virgo lon h4 h5, if_pos h5]
  rw [if_neg (not_lt.mpr h5)]
  rcases lt_or_le lon 217.8 with h6 | h6
  · rw [gc_libra lon h5 h6, if_pos h6]
  rw [if_neg (not_lt.mpr h6)]
  rcases lt_or_le lon 247.1 with h7 | h7
  · rw [gc_scorpius lon h6 h7, if_pos h7]
  rw [if_neg (not_lt.mpr h7)]
  rcases lt_or_le lon 265.3 with h8 | h8
  · rw [gc_ophiuchus lon h7 h8, if_pos h8]
  rw [if_neg (not_lt.mpr h8)]
  rcases lt_or_le lon 299.7 with h9 | h9
  · rw [gc_sagittarius lon h8 h9, if_pos h9]
  rw [if_neg (not_lt.mpr h9)]
  rcases lt_or_le lon 327.9 with h10 | h10
  · rw [gc_capricornus lon h9 h10, if_pos h10]
  rw [if_neg (not_lt.mpr h10)]
  rcases lt_or_le lon 351.6 with h11 | h11
  · rw [gc_aquarius lon h10 h11, if_pos h11]
  rw [if_neg (not_lt.mpr h11)]
  rw [gc_pisces lon h11 h1]

/-- C5 counterexample: the longitude 29.11 lies exactly 0.01 degrees from
the Taurus boundary at 29.1, so its minimum boundary distance is not
strictly below the hard threshold, yet the source classifies it
`HARD_TRIGGER` (the comparisons use `<=`), where the claim predicts
`SOFT_PROXIMITY`. -/
theorem claim_c5_counterexample :
    min_edge_dist 29.11 = 0.01 ∧
    ¬(min_edge_dist 29.11 < 0.01) ∧
    (get_constellation 29.11).2.1 = "HARD_TRIGGER" ∧
    ("HARD_TRIGGER" : String) ≠ "SOFT_PROXIMITY" := by
  have hd : min_edge_dist 29.11 = 0.01 := by
    unfold min_edge_dist
    rw [if_neg (by norm_num), if_pos (by norm_num)]
    rw [min_eq_left (by norm_num)]
    norm_num
  refine ⟨hd, by rw [hd]; exact lt_irrefl _, ?_, by decide⟩
  rw [gc_taurus 29.11 (by norm_num) (by norm_num)]
  rw [min_eq_left (by norm_num)]
  unfold status_for HARD_TRIGGER
  rw [if_pos (by norm_num)]

/-- C5 (amended): for every longitude in `[0, 360)`, the status is
`HARD_TRIGGER` exactly when the minimum distance to the containing arc's
edges is at most 0.01, `SOFT_PROXIMITY` exactly when that distance is
strictly above 0.01 and at most 0.5, and `STABLE` exactly when it is
strictly above 0.5; both threshold comparisons are inclusive, so a
longitude at exactly 0.01 is a hard trigger. -/
theorem claim_c5_thresholds (lon : ℚ) (h0 : 0 ≤ lon) (h1 : lon < 360) :
    ((get_constellation lon).2.1 = "HARD_TRIGGER" ↔ min_edge_dist lon ≤ 0.01) ∧
    ((get_constellation lon).2.1 = "SOFT_PROXIMITY" ↔
      (0.01 < min_edge_dist lon ∧ min_edge_dist lon ≤ 0.5)) ∧
    ((get_constellation lon).2.1 = "STABLE" ↔ 0.5 < min_edge_dist lon) := by
  rw [trigger_status_eq_min_edge lon h0 h1]
  unfold status_for HARD_TRIGGER SOFT_PROXIMITY
  split_ifs with ha hb
  · exact ⟨iff_of_true rfl ha,
      iff_of_false (by decide) (fun hh => absurd ha (not_le.mpr hh.1)),
      iff_of_false (by decide) (by intro hh; linarith)⟩
  · exact ⟨iff_of_false (by decide) (fun hh => ha hh),
      iff_of_true rfl ⟨not_le.mp ha, hb⟩,
      iff_of_false (by decide) (by intro hh; linarith)⟩
  · exact ⟨iff_of_false (by decide) (fun hh => ha hh),
      iff_of_false (by decide) (fun hh => hb hh.2),
      iff_of_true rfl (not_le.mp hb)⟩

/-- C5 witness: the thresholds theorem applied at longitude 100 (a stable
placement deep inside Cancer). -/
theorem claim_c5_thresholds_witness :
    ((get_constellation 100).2.1 = "HARD_TRIGGER" ↔ min_edge_dist 100 ≤ 0.01) ∧
    ((get_constellation 100).2.1 = "SOFT_PROXIMITY" ↔
      (0.01 < min_edge_dist 100 ∧ min_edge_dist 100 ≤ 0.5)) ∧
    ((get_constellation 100).2.1 = "STABLE" ↔ 0.5 < min_edge_dist 100) :=
  claim_c5_thresholds 100 (by norm_num) (by norm_num)

/-- C6 counterexample: symmetry fails at the 0/360 seam between Pisces and
Aries.  At offset 0.005 the Aries side is a hard trigger but the Pisces
side at 359.995 is stable, because the Pisces branch of the source measures
distance only to 351.6 and 389.1, never to the seam at 360. -/
theorem claim_c6_counterexample :
    (get_constellation 0.005).2.1 = "HARD_TRIGGER" ∧
    (get_constellation 359.995).2.1 = "STABLE" := by
  constructor
  · rw [gc_aries 0.005 (by norm_num) (by norm_num), min_eq_left (by norm_num)]
    unfold status_for HARD_TRIGGER
    rw [if_pos (by norm_num)]
  · rw [gc_pisces 359.995 (by norm_num) (by norm_num), min_eq_left (by norm_num)]
    unfold status_for HARD_TRIGGER SOFT_PROXIMITY
    rw [if_neg (by norm_num), if_neg (by norm_num)]

/-- C6 (amended): boundary classification is symmetric around each of the
twelve boundary points shared by two consecutive arcs of the table (all
boundary points except the 0/360 seam): for offsets `d` with
`0 < d ≤ 1`, the longitudes `b + d` and `b - d` receive the same trigger
status.  At the seam itself the symmetry fails (see the counterexample). -/
theorem claim_c6_boundary_symmetry (b : ℚ) (hb : b ∈ interior_boundaries)
    (d : ℚ) (hd0 : 0 < d) (hd1 : d ≤ 1) :
    (get_constellation (b + d)).2.1 = (get_constellation (b - d)).2.1 := by
  have hmem : b = 29.1 ∨ b = 53.4 ∨ b = 90.1 ∨ b = 118.0 ∨ b = 138.1 ∨
      b = 173.9 ∨ b = 217.8 ∨ b = 247.1 ∨ b = 265.3 ∨ b = 299.7 ∨
      b = 327.9 ∨ b = 351.6 := by
    simpa [interior_boundaries, boundaries] using hb
  rcases hmem with rfl | rfl | rfl | rfl | rfl | rfl | rfl | rfl | rfl | rfl | rfl | rfl
  · rw [gc_taurus _ (by linarith) (by linarith), gc_aries _ (by linarith) (by linarith)]
    show status_for (min (29.1 + d - 29.1) (53.4 - (29.1 + d))) =
      status_for (min (29.1 - d) (29.1 - (29.1 - d)))
    rw [show (29.1:ℚ) + d - 29.1 = d by ring, show (29.1:ℚ) - (29.1 - d) = d by ring,
      min_eq_left (by linarith), min_eq_right (by linarith)]
  · rw [gc_gemini _ (by linarith) (by linarith), gc_taurus _ (by linarith) (by linarith)]
    show status_for (min (53.4 + d - 53.4) (90.1 - (53.4 + d))) =
      status_for (min (53.4 - d - 29.1) (53.4 - (53.4 - d)))
    rw [show (53.4:ℚ) + d - 53.4 = d by ring, show (53.4:ℚ) - (53.4 - d) = d by ring,
      min_eq_left (by linarith), min_eq_right (by linarith)]
  · rw [gc_cancer _ (by linarith) (by linarith), gc_gemini _ (by linarith) (by linarith)]
    show status_for (min (90.1 + d - 90.1) (118.0 - (90.1 + d))) =
      status_for (min (90.1 - d - 53.4) (90.1 - (90.1 - d)))
    rw [show (90.1:ℚ) + d - 90.1 = d by ring, show (90.1:ℚ) - (90.1 - d) = d by ring,
      min_eq_left (by linarith), min_eq_right (by linarith)]
  · rw [gc_leo _ (by linarith) (by linarith), gc_cancer _ (by linarith) (by linarith)]
    show status_for (min (118.0 + d - 118.0) (138.1 - (118.0 + d))) =
      status_for (min (118.0 - d - 90.1) (118.0 - (118.0 - d)))
    rw [show (118.0:ℚ) + d - 118.0 = d by ring, show (118.0:ℚ) - (118.0 - d) = d by ring,
      min_eq_left (by linarith), min_eq_right (by linarith)]
  · rw [gc_virgo _ (by linarith) (by linarith), gc_leo _ (by linarith) (by linarith)]
    show status_for (min (138.1 + d - 138.1) (173.9 - (138.1 + d))) =
      status_for (min (138.1 - d - 118.0) (138.1 - (138.1 - d)))
    rw [show (138.1:ℚ) + d - 138.1 = d by ring, show (138.1:ℚ) - (138.1 - d) = d by ring,
      min_eq_left (by linarith), min_eq_right (by linarith)]
  · rw [gc_libra _ (by linarith) (by linarith), gc_virgo _ (by linarith) (by linarith)]
    show status_for (min (173.9 + d - 173.9) (217.8 - (173.9 + d))) =
      status_for (min (173.9 - d - 138.1) (173.9 - (173.9 - d)))
    rw [show (173.9:ℚ) + d - 173.9 = d by ring, show (173.9:ℚ) - (173.9 - d) = d by ring,
      min_eq_left (by linarith), min_eq_right (by linarith)]
  · rw [gc_scorpius _ (by linarith) (by linarith), gc_libra _ (by linarith) (by linarith)]
    show status_for (min (217.8 + d - 217.8) (247.1 - (217.8 + d))) =
      status_for (min (217.8 - d - 173.9) (217.8 - (217.8 - d)))
    rw [show (217.8:ℚ) + d - 217.8 = d by ring, show (217.8:ℚ) - (217.8 - d) = d by ring,
      min_eq_left (by linarith), min_eq_right (by linarith)]
  · rw [gc_ophiuchus _ (by linarith) (by linarith), gc_scorpius _ (by linarith) (by linarith)]
    show status_for (min (247.1 + d - 247.1) (265.3 - (247.1 + d))) =
      status_for (min (247.1 - d - 217.8) (247.1 - (247.1 - d)))
    rw [show (247.1:ℚ) + d - 247.1 = d by ring, show (247.1:ℚ) - (247.1 - d) = d by ring,
      min_eq_left (by linarith), min_eq_right (by linarith)]
  · rw [gc_sagittarius _ (by linarith) (by linarith), gc_ophiuchus _ (by linarith) (by linarith)]
    show status_for (min (265.3 + d - 265.3) (299.7 - (265.3 + d))) =
      status_for (min (265.3 - d - 247.1) (265.3 - (265.3 - d)))
    rw [show (265.3:ℚ) + d - 265.3 = d by ring, show (265.3:ℚ) - (265.3 - d) = d by ring,
      min_eq_left (by linarith), min_eq_right (by linarith)]
  · rw [gc_capricornus _ (by linarith) (by linarith),
      gc_sagittarius _ (by linarith) (by linarith)]
    show status_for (min (299.7 + d - 299.7) (327.9 - (299.7 + d))) =
      status_for (min (299.7 - d - 265.3) (299.7 - (299.7 - d)))
    rw [show (299.7:ℚ) + d - 299.7 = d by ring, show (299.7:ℚ) - (299.7 - d) = d by ring,
      min_eq_left (by linarith), min_eq_right (by linarith)]
  · rw [gc_aquarius _ (by linarith) (by linarith),
      gc_capricornus _ (by linarith) (by linarith)]
    show status_for (min (327.9 + d - 327.9) (351.6 - (327.9 + d))) =
      status_for (min (327.9 - d - 299.7) (327.9 - (327.9 - d)))
    rw [show (327.9:ℚ) + d - 327.9 = d by ring, show (327.9:ℚ) - (327.9 - d) = d by ring,
      min_eq_left (by linarith), min_eq_right (by linarith)]
  · rw [gc_pisces _ (by linarith) (by linarith), gc_aquarius _ (by linarith) (by linarith)]
    show status_for (min (351.6 + d - 351.6) (389.1 - (351.6 + d))) =
      status_for (min (351.6 - d - 327.9) (351.6 - (351.6 - d)))
    rw [show (351.6:ℚ) + d - 351.6 = d by ring, show (351.6:ℚ) - (351.6 - d) = d by ring,
      min_eq_left (by linarith), min_eq_right (by linarith)]

/-- C6 witness: symmetry at 0.5 degrees around the Aries/Taurus boundary. -/
theorem claim_c6_boundary_symmetry_witness :
    (29.1 : ℚ) ∈ interior_boundaries ∧
    (get_constellation (29.1 + 0.5)).2.1 = (get_constellation (29.1 - 0.5)).2.1 := by
  have hmem : (29.1 : ℚ) ∈ interior_boundaries := by
    simp [interior_boundaries, boundaries]
  exact ⟨hmem, claim_c6_boundary_symmetry 29.1 hmem 0.5 (by norm_num) (by norm_num)⟩

/-- C1: the thirteen stored top-level period durations sum to 129.7 years,
not 120.  The table's own comment says the total is 120 years for the 360
degree cycle, and the bhukti subdivision divides by 120.0 on that
assumption; the Pisces entry (12.5 years, from the wrapped 37.5 degree arc
389.1 - 351.6) double-counts the 29.1 degrees of Aries. -/
theorem claim_c1_dasha_years_sum :
    ((dasha_years.map Prod.snd).sum = 129.7) ∧ ((129.7 : ℚ) ≠ 120) := by
  constructor
  · norm_num [dasha_years]
  · norm_num

/-- C2: for the concrete top-level period (lord Aries, start 0, duration
120 years = 43830 days) the thirteen sub-period durations produced by
`calculate_proportional_bhuktis` sum to `(129.7 / 120) x 43830 = 47372.925`
days, not to the enclosing duration of 43830 days: each proportion is
`dasha_years[sign] / 120.0` but the table sums to 129.7. -/
theorem claim_c2_bhukti_sum_bug :
    (((calculate_proportional_bhuktis "Aries" 0 120).map BhuktiR.duration_days).sum
        = (129.7 / 120) * (120 * 365.25)) ∧
    (((calculate_proportional_bhuktis "Aries" 0 120).map BhuktiR.duration_days).sum
        = 47372.925) ∧
    ((120 * 365.25 : ℚ) = 43830) ∧
    (((calculate_proportional_bhuktis "Aries" 0 120).map BhuktiR.duration_days).sum
        ≠ 120 * 365.25) := by
  have hidx : sign_sequence.indexOf "Aries" = 0 := rfl
  have heval : calculate_proportional_bhuktis "Aries" 0 120 =
      bhukti_fold (120 * 365.25) sign_sequence 0 := by
    unfold calculate_proportional_bhuktis
    rw [hidx]
    simp
  rw [heval]
  have hsum : ((bhukti_fold (120 * 365.25) sign_sequence 0).map BhuktiR.duration_days).sum
      = 47372.925 := by
    simp only [sign_sequence, boundaries, List.map_cons, List.map_nil, bhukti_fold,
      List.sum_cons, List.sum_nil,
      show dasha_years_of "Aries" = 9.7 from rfl,
      show dasha_years_of "Taurus" = 8.1 from rfl,
      show dasha_years_of "Gemini" = 12.2 from rfl,
      show dasha_years_of "Cancer" = 9.3 from rfl,
      show dasha_years_of "Leo" = 6.7 from rfl,
      show dasha_years_of "Virgo" = 11.9 from rfl,
      show dasha_years_of "Libra" = 14.6 from rfl,
      show dasha_years_of "Scorpius" = 9.8 from rfl,
      show dasha_years_of "Ophiuchus" = 6.1 from rfl,
      show dasha_years_of "Sagittarius" = 11.5 from rfl,
      show dasha_years_of "Capricornus" = 9.4 from rfl,
      show dasha_years_of "Aquarius" = 7.9 from rfl,
      show dasha_years_of "Pisces" = 12.5 from rfl]
    norm_num
  rw [hsum]
  norm_num

lemma getD_range_map {α : Type} (f : ℕ → α) (d : α) (n k : ℕ) (h : k < n) :
    ((List.range n).map f).getD k d = f k := by
  rw [List.getD_eq_getElem?_getD, List.getElem?_map, List.getElem?_range h]
  rfl

/-- C3 counterexample: the house list built for an Aries Ascendant has
exactly 12 records (the source loops `for house_num in range(1, 13)` and
its docstring says 12 houses), not the 13 the claim requires. -/
theorem claim_c3_counterexample :
    (calculate_houses "Aries" 0).length = 12 ∧
    (calculate_houses "Aries" 0).length ≠ 13 := by
  have h : (calculate_houses "Aries" 0).length = 12 := by
    unfold calculate_houses
    rw [if_pos (by decide : ("Aries" : String) ∈ sign_sequence),
      List.length_map, List.length_range]
  exact ⟨h, by rw [h]; decide⟩

/-- C3 (amended): for every ascendant sign in the arc table, the house
list contains exactly 12 records numbered 1 to 12; house `k` rules the arc
at index `(ascendantArcIndex + k - 1) mod 13` and each house's longitude
span equals its ruling arc's span.  One of the thirteen arcs therefore
rules no house. -/
theorem claim_c3_houses (asc_sign : String) (asc_lon : ℚ) (hmem : asc_sign ∈ sign_sequence) :
    (calculate_houses asc_sign asc_lon).length = 12 ∧
    (∀ k, k < 12 →
      ((calculate_houses asc_sign asc_lon).getD k default).house_number = k + 1 ∧
      ((calculate_houses asc_sign asc_lon).getD k default).ruling_sign =
        sign_sequence.getD ((sign_sequence.indexOf asc_sign + k) % 13) "Aries" ∧
      ((calculate_houses asc_sign asc_lon).getD k default).start_longitude =
        (arc_span ((sign_sequence.indexOf asc_sign + k) % 13)).1 ∧
      ((calculate_houses asc_sign asc_lon).getD k default).end_longitude =
        (arc_span ((sign_sequence.indexOf asc_sign + k) % 13)).2) := by
  unfold calculate_houses arc_span
  rw [if_pos hmem]
  refine ⟨by rw [List.length_map, List.length_range], ?_⟩
  intro k hk
  rw [getD_range_map _ _ 12 k hk]
  have harith : sign_sequence.indexOf asc_sign + (k + 1) - 1 =
      sign_sequence.indexOf asc_sign + k := by omega
  refine ⟨rfl, ?_, ?_, ?_⟩
  · show sign_sequence.getD ((sign_sequence.indexOf asc_sign + (k + 1) - 1) % 13) "Aries" = _
    rw [harith]
  · show (if (sign_sequence.indexOf asc_sign + (k + 1) - 1) % 13 = 0 then (0:ℚ)
      else (boundaries.getD ((sign_sequence.indexOf asc_sign + (k + 1) - 1) % 13 - 1)
        ("Aries", 0)).2) = _
    rw [harith]
  · show (boundaries.getD ((sign_sequence.indexOf asc_sign + (k + 1) - 1) % 13)
      ("Aries", 0)).2 = _
    rw [harith]

/-- C3 witness: the amended house theorem applied to an Aries Ascendant. -/
theorem claim_c3_houses_witness :
    (calculate_houses "Aries" 0).length = 12 ∧
    (∀ k, k < 12 →
      ((calculate_houses "Aries" 0).getD k default).house_number = k + 1 ∧
      ((calculate_houses "Aries" 0).getD k default).ruling_sign =
        sign_sequence.getD ((sign_sequence.indexOf "Aries" + k) % 13) "Aries" ∧
      ((calculate_houses "Aries" 0).getD k default).start_longitude =
        (arc_span ((sign_sequence.indexOf "Aries" + k) % 13)).1 ∧
      ((calculate_houses "Aries" 0).getD k default).end_longitude =
        (arc_span ((sign_sequence.indexOf "Aries" + k) % 13)).2) :=
  claim_c3_houses "Aries" 0 (by decide)

/-! Dasha-sequence lemmas. -/

lemma dasha_tail_succ (si count i : ℕ) (cur : ℚ) :
    dasha_tail si (count + 1) i cur =
      ⟨sign_sequence.getD ((si + i) % 13) "Aries", cur,
        cur + dasha_years_of (sign_sequence.getD ((si + i) % 13) "Aries") * 365.25,
        dasha_years_of (sign_sequence.getD ((si + i) % 13) "Aries")⟩ ::
      dasha_tail si count (i + 1)
        (cur + dasha_years_of (sign_sequence.getD ((si + i) % 13) "Aries") * 365.25) := rfl

lemma dasha_tail_length (si : ℕ) :
    ∀ (count i : ℕ) (cur : ℚ), (dasha_tail si count i cur).length = count := by
  intro count
  induction count with
  | zero => intro i cur; rfl
  | succ c ih =>
    intro i cur
    rw [dasha_tail_succ, List.length_cons, ih]

lemma dasha_tail_getD_start (si : ℕ) :
    ∀ (count i : ℕ) (cur : ℚ) (k : ℕ), k + 1 < count →
      ((dasha_tail si count i cur).getD (k + 1) default).start =
      ((dasha_tail si count i cur).getD k default).endDate := by
  intro count
  induction count with
  | zero => intro i cur k hk; exact absurd hk (by omega)
  | succ c ih =>
    intro i cur k hk
    cases k with
    | zero =>
      obtain ⟨c', rfl⟩ : ∃ c', c = c' + 1 := ⟨c - 1, by omega⟩
      rw [dasha_tail_succ, dasha_tail_succ]
      rfl
    | succ k' =>
      rw [dasha_tail_succ]
      simp only [List.getD_cons_succ]
      exact ih (i + 1) _ k' (by omega)

lemma dasha_tail_lords (si : ℕ) :
    ∀ (count i : ℕ) (cur : ℚ) (k : ℕ), k < count →
      ((dasha_tail si count i cur).getD k default).lord =
        sign_sequence.getD ((si + i + k) % 13) "Aries" := by
  intro count
  induction count with
  | zero => intro i cur k hk; exact absurd hk (by omega)
  | succ c ih =>
    intro i cur k hk
    cases k with
    | zero =>
      rw [dasha_tail_succ]
      simp only [List.getD_cons_zero]
      rw [Nat.add_zero]
    | succ k' =>
      rw [dasha_tail_succ]
      simp only [List.getD_cons_succ]
      rw [ih (i + 1) _ k' (by omega)]
      congr 2
      omega

lemma sign_getD_mem (n : ℕ) : sign_sequence.getD (n % 13) "Aries" ∈ sign_sequence := by
  have hlt : n % 13 < sign_sequence.length := by
    have : sign_sequence.length = 13 := rfl
    rw [this]
    exact Nat.mod_lt _ (by norm_num)
  rw [List.getD_eq_getElem?_getD, List.getElem?_eq_getElem hlt, Option.getD_some]
  exact List.getElem_mem hlt

lemma dasha_tail_struct (si : ℕ) :
    ∀ (count i : ℕ) (cur : ℚ), ∀ p ∈ dasha_tail si count i cur,
      p.lord ∈ sign_sequence ∧ p.total_years = dasha_years_of p.lord ∧
      p.endDate = p.start + p.total_years * 365.25 := by
  intro count
  induction count with
  | zero => intro i cur p hp; simp [dasha_tail] at hp
  | succ c ih =>
    intro i cur p hp
    rw [dasha_tail_succ] at hp
    rcases List.mem_cons.mp hp with rfl | hp
    · exact ⟨sign_getD_mem _, rfl, rfl⟩
    · exact ih (i + 1) _ p hp

lemma classify_scan_fst_mem (lon : ℚ) :
    ∀ (l : List (String × ℚ)) (prev : ℚ),
      (classify_scan lon l prev).1 = "Aries" ∨
      (classify_scan lon l prev).1 ∈ l.map Prod.fst := by
  intro l
  induction l with
  | nil => intro prev; left; rfl
  | cons hd tl ih =>
    intro prev
    obtain ⟨s, b⟩ := hd
    rw [classify_scan_cons]
    by_cases hs : s = "Pisces"
    · rw [if_pos hs]
      by_cases hc : prev ≤ lon ∨ lon < b
      · rw [if_pos hc]; right; simp
      · rw [if_neg hc]
        rcases ih b with h | h
        · left; exact h
        · right; exact List.mem_cons_of_mem _ h
    · rw [if_neg hs]
      by_cases hc : prev ≤ lon ∧ lon < b
      · rw [if_pos hc]; right; simp
      · rw [if_neg hc]
        rcases ih b with h | h
        · left; exact h
        · right; exact List.mem_cons_of_mem _ h

lemma get_constellation_fst_mem (lon : ℚ) : (get_constellation lon).1 ∈ sign_sequence := by
  rcases classify_scan_fst_mem (normalize_longitude lon) boundaries 0 with h | h
  · show (classify_scan (normalize_longitude lon) boundaries 0).1 ∈ sign_sequence
    rw [h]; decide
  · exact h

lemma build_seq_cons (ss : String) (sd ry ey : ℚ) :
    build_dasha_sequence ss sd ry ey =
      ⟨ss, sd, sd + dasha_years_of ss * 365.25, dasha_years_of ss⟩ ::
      dasha_tail (sign_sequence.indexOf ss) 12 1 (sd + dasha_years_of ss * 365.25) := rfl

/-- C7: the timeline built by `calculate_birth_dasha` has 13 top-level
periods; the first starts at the reference instant minus the elapsed
duration and ends one full period duration after that start; every
subsequent period's start equals the previous period's end; and the lords
rotate forward through the 13-arc sequence from the Moon's arc. -/
theorem claim_c7_timeline (moon_lon birth_date : ℚ) :
    (calculate_birth_dasha moon_lon birth_date).sequence.length = 13 ∧
    (((calculate_birth_dasha moon_lon birth_date).sequence.getD 0 default).start =
      birth_date - (calculate_birth_dasha moon_lon birth_date).elapsed_years * 365.25) ∧
    (((calculate_birth_dasha moon_lon birth_date).sequence.getD 0 default).endDate =
      ((calculate_birth_dasha moon_lon birth_date).sequence.getD 0 default).start +
        dasha_years_of (get_constellation moon_lon).1 * 365.25) ∧
    (∀ k, k + 1 < 13 →
      ((calculate_birth_dasha moon_lon birth_date).sequence.getD (k + 1) default).start =
      ((calculate_birth_dasha moon_lon birth_date).sequence.getD k default).endDate) ∧
    (∀ k, k < 13 →
      ((calculate_birth_dasha moon_lon birth_date).sequence.getD k default).lord =
        sign_sequence.getD
          ((sign_sequence.indexOf (get_constellation moon_lon).1 + k) % 13) "Aries") := by
  have hseq : (calculate_birth_dasha moon_lon birth_date).sequence =
      ⟨(get_constellation moon_lon).1,
        (calculate_birth_dasha moon_lon birth_date).maha_dasha_start,
        (calculate_birth_dasha moon_lon birth_date).maha_dasha_start +
          dasha_years_of (get_constellation moon_lon).1 * 365.25,
        dasha_years_of (get_constellation moon_lon).1⟩ ::
      dasha_tail (sign_sequence.indexOf (get_constellation moon_lon).1) 12 1
        ((calculate_birth_dasha moon_lon birth_date).maha_dasha_start +
          dasha_years_of (get_constellation moon_lon).1 * 365.25) := rfl
  have hidx : sign_sequence.indexOf (get_constellation moon_lon).1 < sign_sequence.length :=
    List.indexOf_lt_length.mpr (get_constellation_fst_mem moon_lon)
  refine ⟨?_, rfl, rfl, ?_, ?_⟩
  · rw [hseq, List.length_cons, dasha_tail_length]
  · intro k hk
    cases k with
    | zero => rw [hseq]; rfl
    | succ k' =>
      rw [hseq]
      simp only [List.getD_cons_succ]
      exact dasha_tail_getD_start _ 12 1 _ k' (by omega)
  · intro k hk
    cases k with
    | zero =>
      rw [hseq]
      simp only [List.getD_cons_zero, Nat.add_zero]
      have hlt13 : sign_sequence.indexOf (get_constellation moon_lon).1 < 13 := by
        have : sign_sequence.length = 13 := rfl
        omega
      rw [Nat.mod_eq_of_lt hlt13]
      rw [List.getD_eq_getElem?_getD, List.getElem?_eq_getElem hidx, Option.getD_some]
      exact (List.getElem_indexOf hidx).symm
    | succ k' =>
      rw [hseq]
      simp only [List.getD_cons_succ]
      rw [dasha_tail_lords _ 12 1 _ k' (by omega)]
      congr 2
      omega

/-- C7 witness: the timeline theorem applied at Moon longitude 100 and
reference instant 0. -/
theorem claim_c7_timeline_witness :
    (calculate_birth_dasha 100 0).sequence.length = 13 ∧
    (((calculate_birth_dasha 100 0).sequence.getD 0 default).start =
      0 - (calculate_birth_dasha 100 0).elapsed_years * 365.25) ∧
    (((calculate_birth_dasha 100 0).sequence.getD 0 default).endDate =
      ((calculate_birth_dasha 100 0).sequence.getD 0 default).start +
        dasha_years_of (get_constellation 100).1 * 365.25) ∧
    (∀ k, k + 1 < 13 →
      ((calculate_birth_dasha 100 0).sequence.getD (k + 1) default).start =
      ((calculate_birth_dasha 100 0).sequence.getD k default).endDate) ∧
    (∀ k, k < 13 →
      ((calculate_birth_dasha 100 0).sequence.getD k default).lord =
        sign_sequence.getD
          ((sign_sequence.indexOf (get_constellation 100).1 + k) % 13) "Aries") :=
  claim_c7_timeline 100 0

/-! Current-dasha lemmas (claim C9). -/

lemma dasha_years_of_pos {s : String} (hs : s ∈ sign_sequence) : 0 < dasha_years_of s := by
  have h : s = "Aries" ∨ s = "Taurus" ∨ s = "Gemini" ∨ s = "Cancer" ∨ s = "Leo" ∨
      s = "Virgo" ∨ s = "Libra" ∨ s = "Scorpius" ∨ s = "Ophiuchus" ∨ s = "Sagittarius" ∨
      s = "Capricornus" ∨ s = "Aquarius" ∨ s = "Pisces" := by
    simpa [sign_sequence, boundaries] using hs
  rcases h with rfl | rfl | rfl | rfl | rfl | rfl | rfl | rfl | rfl | rfl | rfl | rfl | rfl <;>
    norm_num [show dasha_years_of "Aries" = 9.7 from rfl,
      show dasha_years_of "Taurus" = 8.1 from rfl,
      show dasha_years_of "Gemini" = 12.2 from rfl,
      show dasha_years_of "Cancer" = 9.3 from rfl,
      show dasha_years_of "Leo" = 6.7 from rfl,
      show dasha_years_of "Virgo" = 11.9 from rfl,
      show dasha_years_of "Libra" = 14.6 from rfl,
      show dasha_years_of "Scorpius" = 9.8 from rfl,
      show dasha_years_of "Ophiuchus" = 6.1 from rfl,
      show dasha_years_of "Sagittarius" = 11.5 from rfl,
      show dasha_years_of "Capricornus" = 9.4 from rfl,
      show dasha_years_of "Aquarius" = 7.9 from rfl,
      show dasha_years_of "Pisces" = 12.5 from rfl]

lemma calculate_birth_dasha_seq (moon_lon birth_date : ℚ) :
    (calculate_birth_dasha moon_lon birth_date).sequence =
      ⟨(get_constellation moon_lon).1,
        (calculate_birth_dasha moon_lon birth_date).maha_dasha_start,
        (calculate_birth_dasha moon_lon birth_date).maha_dasha_start +
          dasha_years_of (get_constellation moon_lon).1 * 365.25,
        dasha_years_of (get_constellation moon_lon).1⟩ ::
      dasha_tail (sign_sequence.indexOf (get_constellation moon_lon).1) 12 1
        ((calculate_birth_dasha moon_lon birth_date).maha_dasha_start +
          dasha_years_of (get_constellation moon_lon).1 * 365.25) := rfl

lemma calculate_birth_dasha_struct (moon_lon birth_date : ℚ) :
    ∀ p ∈ (calculate_birth_dasha moon_lon birth_date).sequence,
      p.lord ∈ sign_sequence ∧ p.total_years = dasha_years_of p.lord ∧
      p.endDate = p.start + p.total_years * 365.25 := by
  intro p hp
  rw [calculate_birth_dasha_seq] at hp
  rcases List.mem_cons.mp hp with rfl | hp
  · exact ⟨get_constellation_fst_mem moon_lon, rfl, rfl⟩
  · exact dasha_tail_struct _ 12 1 _ p hp

lemma dasha_tail_le_last (si : ℕ) :
    ∀ (c i : ℕ) (cur : ℚ), ∀ p ∈ dasha_tail si (c + 1) i cur,
      p.endDate ≤ ((dasha_tail si (c + 1) i cur).getD c default).endDate := by
  intro c
  induction c with
  | zero =>
    intro i cur p hp
    rw [dasha_tail_succ] at hp ⊢
    rcases List.mem_cons.mp hp with rfl | hp
    · simp
    · simp [dasha_tail] at hp
  | succ c' ih =>
    intro i cur p hp
    rw [dasha_tail_succ] at hp ⊢
    simp only [List.getD_cons_succ]
    rcases List.mem_cons.mp hp with rfl | hp
    · have hq0mem :
          (⟨sign_sequence.getD ((si + (i + 1)) % 13) "Aries",
            cur + dasha_years_of (sign_sequence.getD ((si + i) % 13) "Aries") * 365.25,
            cur + dasha_years_of (sign_sequence.getD ((si + i) % 13) "Aries") * 365.25 +
              dasha_years_of (sign_sequence.getD ((si + (i + 1)) % 13) "Aries") * 365.25,
            dasha_years_of (sign_sequence.getD ((si + (i + 1)) % 13) "Aries")⟩ : PeriodR)
          ∈ dasha_tail si (c' + 1) (i + 1)
            (cur + dasha_years_of (sign_sequence.getD ((si + i) % 13) "Aries") * 365.25) := by
        rw [dasha_tail_succ]
        exact List.mem_cons_self _ _
      have h1 := ih (i + 1) _ _ hq0mem
      have h2 : 0 < dasha_years_of (sign_sequence.getD ((si + (i + 1)) % 13) "Aries") :=
        dasha_years_of_pos (sign_getD_mem _)
      simp only at h1
      linarith
    · exact ih (i + 1) _ p hp

lemma find_period_cons (d : ℚ) (p : PeriodR) (rest : List PeriodR) :
    find_period d (p :: rest) =
      if p.start ≤ d ∧ d < p.endDate then some p else find_period d rest := rfl

lemma find_period_eq_none {d : ℚ} :
    ∀ {l : List PeriodR}, (∀ p ∈ l, ¬(p.start ≤ d ∧ d < p.endDate)) →
      find_period d l = none := by
  intro l
  induction l with
  | nil => intro _; rfl
  | cons p rest ih =>
    intro h
    rw [find_period_cons, if_neg (h p (List.mem_cons_self _ _))]
    exact ih (fun q hq => h q (List.mem_cons_of_mem _ hq))

lemma find_period_some {d : ℚ} :
    ∀ {l : List PeriodR} {p : PeriodR}, find_period d l = some p →
      p ∈ l ∧ p.start ≤ d ∧ d < p.endDate := by
  intro l
  induction l with
  | nil => intro p h; exact absurd h (by simp [find_period])
  | cons q rest ih =>
    intro p h
    rw [find_period_cons] at h
    by_cases hc : q.start ≤ d ∧ d < q.endDate
    · rw [if_pos hc] at h
      obtain rfl := Option.some.inj h
      exact ⟨List.mem_cons_self _ _, hc⟩
    · rw [if_neg hc] at h
      have := ih h
      exact ⟨List.mem_cons_of_mem _ this.1, this.2⟩

lemma find_bhukti_cons (d : ℚ) (b : BhuktiR) (rest : List BhuktiR) :
    find_bhukti d (b :: rest) =
      if b.start ≤ d ∧ d < b.endDate then some b else find_bhukti d rest := rfl

lemma find_bhukti_some {d : ℚ} :
    ∀ {l : List BhuktiR} {b : BhuktiR}, find_bhukti d l = some b →
      b ∈ l ∧ b.start ≤ d ∧ d < b.endDate := by
  intro l
  induction l with
  | nil => intro b h; exact absurd h (by simp [find_bhukti])
  | cons q rest ih =>
    intro b h
    rw [find_bhukti_cons] at h
    by_cases hc : q.start ≤ d ∧ d < q.endDate
    · rw [if_pos hc] at h
      obtain rfl := Option.some.inj h
      exact ⟨List.mem_cons_self _ _, hc⟩
    · rw [if_neg hc] at h
      have := ih h
      exact ⟨List.mem_cons_of_mem _ this.1, this.2⟩

lemma bhukti_fold_cons (td : ℚ) (s : String) (rest : List String) (cur : ℚ) :
    bhukti_fold td (s :: rest) cur =
      ⟨s, cur, cur + td * (dasha_years_of s / 120), td * (dasha_years_of s / 120),
        td * (dasha_years_of s / 120) / 365.25⟩ ::
      bhukti_fold td rest (cur + td * (dasha_years_of s / 120)) := rfl

lemma bhukti_fold_find (td : ℚ) :
    ∀ (names : List String) (cur d : ℚ), cur ≤ d →
      d < cur + td * (((names.map dasha_years_of).sum) / 120) →
      ∃ b, find_bhukti d (bhukti_fold td names cur) = some b ∧ b.start ≤ d ∧ d < b.endDate := by
  intro names
  induction names with
  | nil =>
    intro cur d h1 h2
    exfalso
    simp only [List.map_nil, List.sum_nil, zero_div, mul_zero, add_zero] at h2
    linarith
  | cons s rest ih =>
    intro cur d h1 h2
    rw [bhukti_fold_cons, find_bhukti_cons]
    by_cases hc : cur ≤ d ∧ d < cur + td * (dasha_years_of s / 120)
    · rw [if_pos hc]
      exact ⟨_, rfl, hc⟩
    · rw [if_neg hc]
      have hge : cur + td * (dasha_years_of s / 120) ≤ d := by
        rcases not_and_or.mp hc with h | h
        · exact absurd h1 h
        · exact not_lt.mp h
      apply ih (cur + td * (dasha_years_of s / 120)) d hge
      have hexp : cur + td * ((dasha_years_of s + (rest.map dasha_years_of).sum) / 120) =
          (cur + td * (dasha_years_of s / 120)) + td * (((rest.map dasha_years_of).sum) / 120) := by
        ring
      simp only [List.map_cons, List.sum_cons] at h2
      rw [hexp] at h2
      exact h2

lemma rotated_sum (idx : ℕ) :
    ((sign_sequence.drop idx ++ sign_sequence.take idx).map dasha_years_of).sum = 129.7 := by
  rw [List.map_append, List.sum_append, add_comm, ← List.sum_append, ← List.map_append,
    List.take_append_drop]
  simp only [sign_sequence, boundaries, List.map_cons, List.map_nil, List.sum_cons, List.sum_nil,
    show dasha_years_of "Aries" = 9.7 from rfl,
    show dasha_years_of "Taurus" = 8.1 from rfl,
    show dasha_years_of "Gemini" = 12.2 from rfl,
    show dasha_years_of "Cancer" = 9.3 from rfl,
    show dasha_years_of "Leo" = 6.7 from rfl,
    show dasha_years_of "Virgo" = 11.9 from rfl,
    show dasha_years_of "Libra" = 14.6 from rfl,
    show dasha_years_of "Scorpius" = 9.8 from rfl,
    show dasha_years_of "Ophiuchus" = 6.1 from rfl,
    show dasha_years_of "Sagittarius" = 11.5 from rfl,
    show dasha_years_of "Capricornus" = 9.4 from rfl,
    show dasha_years_of "Aquarius" = 7.9 from rfl,
    show dasha_years_of "Pisces" = 12.5 from rfl]
  norm_num

lemma calculate_proportional_bhuktis_eq (lord : String) (sd ty : ℚ) :
    calculate_proportional_bhuktis lord sd ty =
      bhukti_fold (ty * 365.25)
        (sign_sequence.drop (sign_sequence.indexOf lord) ++
          sign_sequence.take (sign_sequence.indexOf lord)) sd := rfl

/-- C9: for every engine-built timeline, an instant at or beyond the last
top-level period's end yields the structured `beyond_cycle` result (a value
of the result type, never an exception in this total embedding), while an
instant contained in some top-level period (first period with
`start <= instant < end`) yields that period together with a containing
sub-period found by linear scan of the on-demand bhukti list, which always
exists. -/
theorem claim_c9_current_dasha (moon_lon birth_date d : ℚ) :
    ((((calculate_birth_dasha moon_lon birth_date).sequence.getD 12 default).endDate ≤ d) →
      get_current_dasha (calculate_birth_dasha moon_lon birth_date) d =
        CurrentDasha.beyond_cycle) ∧
    (∀ p, find_period d (calculate_birth_dasha moon_lon birth_date).sequence = some p →
      get_current_dasha (calculate_birth_dasha moon_lon birth_date) d =
        CurrentDasha.active p
          (find_bhukti d (calculate_proportional_bhuktis p.lord p.start p.total_years)) d ∧
      (find_bhukti d (calculate_proportional_bhuktis p.lord p.start p.total_years)).isSome
        = true ∧
      (∀ b, find_bhukti d (calculate_proportional_bhuktis p.lord p.start p.total_years)
          = some b → b.start ≤ d ∧ d < b.endDate)) := by
  constructor
  · intro hd
    have hlast : ∀ p ∈ (calculate_birth_dasha moon_lon birth_date).sequence,
        p.endDate ≤
          (((calculate_birth_dasha moon_lon birth_date).sequence.getD 12 default).endDate) := by
      intro p hp
      rw [calculate_birth_dasha_seq] at hp ⊢
      simp only [List.getD_cons_succ]
      rcases List.mem_cons.mp hp with rfl | hp
      · have hq0mem :
            (⟨sign_sequence.getD
                ((sign_sequence.indexOf (get_constellation moon_lon).1 + 1) % 13) "Aries",
              (calculate_birth_dasha moon_lon birth_date).maha_dasha_start +
                dasha_years_of (get_constellation moon_lon).1 * 365.25,
              (calculate_birth_dasha moon_lon birth_date).maha_dasha_start +
                dasha_years_of (get_constellation moon_lon).1 * 365.25 +
                dasha_years_of (sign_sequence.getD
                  ((sign_sequence.indexOf (get_constellation moon_lon).1 + 1) % 13) "Aries")
                  * 365.25,
              dasha_years_of (sign_sequence.getD
                ((sign_sequence.indexOf (get_constellation moon_lon).1 + 1) % 13) "Aries")⟩ :
              PeriodR)
            ∈ dasha_tail (sign_sequence.indexOf (get_constellation moon_lon).1) 12 1
              ((calculate_birth_dasha moon_lon birth_date).maha_dasha_start +
                dasha_years_of (get_constellation moon_lon).1 * 365.25) := by
          rw [show (12:ℕ) = 11 + 1 from rfl, dasha_tail_succ]
          exact List.mem_cons_self _ _
        have h1 := dasha_tail_le_last _ 11 1 _ _ hq0mem
        have h2 : 0 < dasha_years_of (sign_sequence.getD
            ((sign_sequence.indexOf (get_constellation moon_lon).1 + 1) % 13) "Aries") :=
          dasha_years_of_pos (sign_getD_mem _)
        simp only at h1
        linarith
      · exact dasha_tail_le_last _ 11 1 _ p hp
    have hnone : find_period d (calculate_birth_dasha moon_lon birth_date).sequence = none :=
      find_period_eq_none (fun p hp hcon =>
        absurd hcon.2 (not_lt.mpr (le_trans (hlast p hp) hd)))
    simp only [get_current_dasha, hnone]
  · intro p hp
    obtain ⟨hmem, hsd, hde⟩ := find_period_some hp
    obtain ⟨hlord, htot, hend⟩ := calculate_birth_dasha_struct moon_lon birth_date p hmem
    have hposy : 0 < dasha_years_of p.lord := dasha_years_of_pos hlord
    have hcov : d < p.start + (p.total_years * 365.25) *
        (((sign_sequence.drop (sign_sequence.indexOf p.lord) ++
          sign_sequence.take (sign_sequence.indexOf p.lord)).map dasha_years_of).sum / 120) := by
      rw [rotated_sum]
      have htd : 0 ≤ p.total_years * 365.25 := by
        rw [htot]
        positivity
      have h129 : p.total_years * 365.25 ≤ (p.total_years * 365.25) * ((129.7:ℚ) / 120) := by
        nlinarith
      rw [hend] at hde
      linarith
    obtain ⟨b, hb, hb1, hb2⟩ :=
      bhukti_fold_find (p.total_years * 365.25) _ p.start d hsd hcov
    refine ⟨?_, ?_, ?_⟩
    · simp only [get_current_dasha, hp]
    · rw [calculate_proportional_bhuktis_eq, hb]
      rfl
    · intro b' hb'
      exact (find_bhukti_some hb').2

lemma get_constellation_zero : get_constellation 0 = ("Aries", "HARD_TRIGGER", 0) := by
  rw [gc_aries 0 le_rfl (by norm_num),
    show min (0:ℚ) (29.1 - 0) = 0 from min_eq_left (by norm_num)]
  unfold status_for HARD_TRIGGER
  rw [if_pos (by norm_num)]

lemma birth_dasha_zero_last :
    ((calculate_birth_dasha 0 0).sequence.getD 12 default).endDate = 47372.925 := by
  norm_num [calculate_birth_dasha, get_constellation_zero, build_dasha_sequence, dasha_tail,
    List.getD_cons_succ, List.getD_cons_zero,
    show sign_sequence.indexOf "Aries" = 0 from rfl,
    show (boundaries.getD 0 ("Aries", 0)).2 = 29.1 from rfl,
    show dasha_years_of "Aries" = 9.7 from rfl,
    show dasha_years_of "Taurus" = 8.1 from rfl,
    show dasha_years_of "Gemini" = 12.2 from rfl,
    show dasha_years_of "Cancer" = 9.3 from rfl,
    show dasha_years_of "Leo" = 6.7 from rfl,
    show dasha_years_of "Virgo" = 11.9 from rfl,
    show dasha_years_of "Libra" = 14.6 from rfl,
    show dasha_years_of "Scorpius" = 9.8 from rfl,
    show dasha_years_of "Ophiuchus" = 6.1 from rfl,
    show dasha_years_of "Sagittarius" = 11.5 from rfl,
    show dasha_years_of "Capricornus" = 9.4 from rfl,
    show dasha_years_of "Aquarius" = 7.9 from rfl,
    show dasha_years_of "Pisces" = 12.5 from rfl,
    show (sign_sequence[1]?).getD "Aries" = "Taurus" from rfl,
    show (sign_sequence[2]?).getD "Aries" = "Gemini" from rfl,
    show (sign_sequence[3]?).getD "Aries" = "Cancer" from rfl,
    show (sign_sequence[4]?).getD "Aries" = "Leo" from rfl,
    show (sign_sequence[5]?).getD "Aries" = "Virgo" from rfl,
    show (sign_sequence[6]?).getD "Aries" = "Libra" from rfl,
    show (sign_sequence[7]?).getD "Aries" = "Scorpius" from rfl,
    show (sign_sequence[8]?).getD "Aries" = "Ophiuchus" from rfl,
    show (sign_sequence[9]?).getD "Aries" = "Sagittarius" from rfl,
    show (sign_sequence[10]?).getD "Aries" = "Capricornus" from rfl,
    show (sign_sequence[11]?).getD "Aries" = "Aquarius" from rfl,
    show (sign_sequence[12]?).getD "Aries" = "Pisces" from rfl]

lemma birth_dasha_zero_find :
    find_period 0 (calculate_birth_dasha 0 0).sequence =
      some ⟨"Aries", 0, 3542.925, 9.7⟩ := by
  rw [calculate_birth_dasha_seq, get_constellation_zero]
  norm_num [find_period_cons, calculate_birth_dasha, get_constellation_zero,
    show sign_sequence.indexOf "Aries" = 0 from rfl,
    show (boundaries.getD 0 ("Aries", 0)).2 = 29.1 from rfl,
    show dasha_years_of "Aries" = 9.7 from rfl]

/-- C9 witness: at Moon longitude 0 and reference 0, the instant 1000000
is beyond the 120-year cycle and yields `beyond_cycle`; the instant 0 lies
in the first period and yields that period with a containing bhukti. -/
theorem claim_c9_current_dasha_witness :
    (((calculate_birth_dasha 0 0).sequence.getD 12 default).endDate ≤ 1000000) ∧
    get_current_dasha (calculate_birth_dasha 0 0) 1000000 = CurrentDasha.beyond_cycle ∧
    find_period 0 (calculate_birth_dasha 0 0).sequence =
      some ⟨"Aries", 0, 3542.925, 9.7⟩ ∧
    (get_current_dasha (calculate_birth_dasha 0 0) 0 =
      CurrentDasha.active ⟨"Aries", 0, 3542.925, 9.7⟩
        (find_bhukti 0 (calculate_proportional_bhuktis "Aries" 0 9.7)) 0 ∧
     (find_bhukti 0 (calculate_proportional_bhuktis "Aries" 0 9.7)).isSome = true ∧
     (∀ b, find_bhukti 0 (calculate_proportional_bhuktis "Aries" 0 9.7) = some b →
        b.start ≤ 0 ∧ 0 < b.endDate)) := by
  have h1 : ((calculate_birth_dasha 0 0).sequence.getD 12 default).endDate ≤ 1000000 := by
    rw [birth_dasha_zero_last]; norm_num
  exact ⟨h1, (claim_c9_current_dasha 0 0 1000000).1 h1, birth_dasha_zero_find,
    (claim_c9_current_dasha 0 0 0).2 _ birth_dasha_zero_find⟩

lemma get_constellation_sun_hard :
    get_constellation 90.105 = ("Cancer", "HARD_TRIGGER", 0.005) := by
  rw [gc_cancer _ (by norm_num) (by norm_num),
    (min_eq_left (by norm_num : ((90.105:ℚ) - 90.1) ≤ 118.0 - 90.105)).trans
      (by norm_num : (90.105:ℚ) - 90.1 = 0.005)]
  unfold status_for HARD_TRIGGER
  rw [if_pos (by norm_num)]
  norm_num

lemma check_event_transits_sun :
    check_event_transits [("Sun", (90.105 : ℚ))] [] =
      ⟨["Sun at Cancer boundary"], [], []⟩ := by
  unfold check_event_transits
  rw [List.foldl_cons, List.foldl_nil]
  dsimp only
  rw [get_constellation_sun_hard]
  dsimp only
  rw [if_pos rfl]
  rfl

/-- C4: the +18 Ascendant-hit bonus is never awarded, even when a
transiting hard-trigger body lies within 1 degree of the natal Ascendant.
Here the transiting Sun at 90.105 is a hard trigger and sits 0.395 degrees
from an Ascendant at 90.5, yet the bonus block yields 0: the source
compares the Ascendant to `transit_triggers.get('longitude', 999)`, which
is always the default 999 (the dict has no such key), and no hard-trigger
string ever contains "Ascendant". -/
theorem claim_c4_ascendant_hit_bug :
    (check_event_transits [("Sun", (90.105 : ℚ))] []).hard = ["Sun at Cancer boundary"] ∧
    (min |(90.105 : ℚ) - 90.5| (360 - |(90.105 : ℚ) - 90.5|) < 1) ∧
    ascendant_hit_bonus 90.5 (check_event_transits [("Sun", (90.105 : ℚ))] []) = 0 := by
  have habs : |(90.105 : ℚ) - 90.5| = 0.395 := by
    rw [abs_of_nonpos (by norm_num), neg_sub]; norm_num
  refine ⟨by rw [check_event_transits_sun], ?_, ?_⟩
  · rw [habs, min_eq_left (by norm_num)]; norm_num
  · have hsc : str_contains "Sun at Cancer boundary" "Ascendant" = false := by decide
    have h999 : (decide (|(90.5:ℚ) - 999| < 1)) = false :=
      decide_eq_false (by rw [abs_of_nonpos (by norm_num), neg_sub]; norm_num)
    have hcond : (["Sun at Cancer boundary"].any
        (fun trigger => str_contains trigger "Ascendant" || decide (|(90.5:ℚ) - 999| < 1)))
        = false := by
      rw [List.any_cons, List.any_nil, hsc, h999]
      rfl
    rw [check_event_transits_sun]
    unfold ascendant_hit_bonus
    rw [if_neg]
    rw [hcond]
    simp

/-! Scanner lemmas (claim C8). -/

lemma natal_fold_count :
    ∀ (l : List (String × Luminosity)) (init : ℤ),
      l.foldl (fun acc pd =>
        if pd.2.trigger_status = "HARD_TRIGGER" then acc + 8
        else if pd.2.trigger_status = "SOFT_PROXIMITY" then acc + 4
        else acc) init =
      init + 8 * (l.countP (fun pd => decide (pd.2.trigger_status = "HARD_TRIGGER"))) +
        4 * (l.countP (fun pd => decide (pd.2.trigger_status = "SOFT_PROXIMITY"))) := by
  intro l
  induction l with
  | nil => intro init; simp
  | cons pd rest ih =>
    intro init
    rw [List.foldl_cons]
    by_cases h1 : pd.2.trigger_status = "HARD_TRIGGER"
    · have h2 : ¬pd.2.trigger_status = "SOFT_PROXIMITY" := by rw [h1]; decide
      rw [if_pos h1, ih,
        List.countP_cons_of_pos _ _ (by simp [h1]),
        List.countP_cons_of_neg _ _ (by simp [h2])]
      push_cast
      ring
    · by_cases h2 : pd.2.trigger_status = "SOFT_PROXIMITY"
      · rw [if_neg h1, if_pos h2, ih,
          List.countP_cons_of_neg _ _ (by simp [h1]),
          List.countP_cons_of_pos _ _ (by simp [h2])]
        push_cast
        ring
      · rw [if_neg h1, if_neg h2, ih,
          List.countP_cons_of_neg _ _ (by simp [h1]),
          List.countP_cons_of_neg _ _ (by simp [h2])]

lemma score_candidate_nil_breakdown (chart : ChartR) (transit_oracle : ℚ → List (String × ℚ)) :
    (score_candidate chart [] transit_oracle).breakdown.dasha_correlation = 0 ∧
    (score_candidate chart [] transit_oracle).breakdown.event_type_match = 0 :=
  ⟨rfl, rfl⟩

lemma score_candidate_nil_total (chart : ChartR) (transit_oracle : ℚ → List (String × ℚ)) :
    (score_candidate chart [] transit_oracle).total_score = natal_contribution chart := by
  unfold score_candidate natal_contribution
  rw [List.foldl_nil]
  dsimp only
  rw [natal_fold_count,
    show special_trigger_of "ophiuchus_mercury" = 20 from rfl,
    show special_trigger_of "sun_boundary" = 15 from rfl,
    show special_trigger_of "moon_boundary" = 12 from rfl]
  ring

lemma scan_times_eval (a : ℚ) :
    scan_times (a - 1/2) (a + 1/2) (10/60) =
      [a - 1/2, a - 1/3, a - 1/6, a, a + 1/6, a + 1/3, a + 1/2] := by
  have step : ∀ (n : ℕ) (cur : ℚ), cur ≤ a + 1/2 →
      scan_emit (a + 1/2) (10/60) (n + 1) cur =
        cur :: scan_emit (a + 1/2) (10/60) n (cur + 10/60) := by
    intro n cur hc
    show (if cur ≤ a + 1/2 then cur :: scan_emit (a + 1/2) (10/60) n (cur + 10/60) else []) = _
    rw [if_pos hc]
  unfold scan_times
  rw [if_pos (by norm_num : (0:ℚ) < 10/60),
    show (a + 1/2 - (a - 1/2)) / ((10:ℚ)/60) = 6 from by ring]
  rw [show (⌊(6:ℚ)⌋ = 6) from by norm_num, show ((6:ℤ)+1).toNat = 7 from rfl]
  rw [show (7:ℕ) = 6 + 1 from rfl, step 6 _ (by linarith)]
  rw [show (6:ℕ) = 5 + 1 from rfl, step 5 _ (by linarith)]
  rw [show (5:ℕ) = 4 + 1 from rfl, step 4 _ (by linarith)]
  rw [show (4:ℕ) = 3 + 1 from rfl, step 3 _ (by linarith)]
  rw [show (3:ℕ) = 2 + 1 from rfl, step 2 _ (by linarith)]
  rw [show (2:ℕ) = 1 + 1 from rfl, step 1 _ (by linarith)]
  rw [show (1:ℕ) = 0 + 1 from rfl, step 0 _ (by linarith)]
  rw [show scan_emit (a + 1/2) (10/60) 0 (a - 1/2 + 10/60 + 10/60 + 10/60 + 10/60 + 10/60 +
    10/60 + 10/60) = [] from rfl]
  simp only [List.cons.injEq, and_true]
  refine ⟨by ring, by ring, by ring, by ring, by ring, by ring, by ring⟩

lemma scan_adjust_id (birth_day : ℤ) (t : ℚ) (h0 : 0 ≤ t) (h24 : t < 24) :
    scan_adjust birth_day t = (birth_day, t) := by
  unfold scan_adjust
  rw [if_neg (by linarith), if_neg (by linarith)]

/-- C8: scanning a 1-hour window (half-width 0.5 hours) at 10-minute steps
with an empty life-event list returns exactly 7 candidates whose tested
times are the inclusive endpoints at 0, 10, ..., 60 minutes, and every
candidate's breakdown has `dasha_correlation = 0` and
`event_type_match = 0`, with the score equal to the natal-only
contribution.  The chart builder and transit positions are the external
ephemeris oracles; the bounds on `a` keep the window inside one calendar
day (no midnight wrap). -/
theorem claim_c8_empty_scan (calc_chart : ℤ → ℚ → ChartR)
    (transit_oracle : ℚ → List (String × ℚ)) (birth_day : ℤ) (a : ℚ)
    (h1 : 1/2 ≤ a) (h2 : a + 1/2 < 24) :
    (scan_window calc_chart transit_oracle birth_day a [] (1/2) 10).length = 7 ∧
    ((scan_window calc_chart transit_oracle birth_day a [] (1/2) 10).map
        CandidateR.time_utc).Perm
      [a - 1/2, a - 1/3, a - 1/6, a, a + 1/6, a + 1/3, a + 1/2] ∧
    (∀ c ∈ scan_window calc_chart transit_oracle birth_day a [] (1/2) 10,
      c.scoring_breakdown.dasha_correlation = 0 ∧
      c.scoring_breakdown.event_type_match = 0 ∧
      c.score = natal_contribution c.chart) := by
  refine ⟨?_, ?_, ?_⟩
  · unfold scan_window
    rw [List.length_mergeSort, List.length_map, scan_times_eval]
    rfl
  · unfold scan_window
    refine ((List.mergeSort_perm _ _).map CandidateR.time_utc).trans ?_
    rw [List.map_map, scan_times_eval]
    simp only [List.map_cons, List.map_nil, Function.comp]
    rw [scan_adjust_id birth_day (a - 1/2) (by linarith) (by linarith),
      scan_adjust_id birth_day (a - 1/3) (by linarith) (by linarith),
      scan_adjust_id birth_day (a - 1/6) (by linarith) (by linarith),
      scan_adjust_id birth_day a (by linarith) (by linarith),
      scan_adjust_id birth_day (a + 1/6) (by linarith) (by linarith),
      scan_adjust_id birth_day (a + 1/3) (by linarith) (by linarith),
      scan_adjust_id birth_day (a + 1/2) (by linarith) (by linarith)]
  · intro c hc
    unfold scan_window at hc
    have hc0 := List.mem_mergeSort.mp hc
    obtain ⟨t, ht, rfl⟩ := List.mem_map.mp hc0
    exact ⟨(score_candidate_nil_breakdown (calc_chart (scan_adjust birth_day t).1
        (scan_adjust birth_day t).2) transit_oracle).1,
      (score_candidate_nil_breakdown (calc_chart (scan_adjust birth_day t).1
        (scan_adjust birth_day t).2) transit_oracle).2,
      score_candidate_nil_total (calc_chart (scan_adjust birth_day t).1
        (scan_adjust birth_day t).2) transit_oracle⟩

/-- C8 witness: the empty-event scan theorem applied at approximate time 12
with the trivial chart and transit oracles. -/
theorem claim_c8_empty_scan_witness :
    (1/2 : ℚ) ≤ 12 ∧ (12 : ℚ) + 1/2 < 24 ∧
    ((scan_window trivial_calc_chart trivial_transit_oracle 0 12 [] (1/2) 10).length = 7 ∧
     ((scan_window trivial_calc_chart trivial_transit_oracle 0 12 [] (1/2) 10).map
         CandidateR.time_utc).Perm
       [12 - 1/2, 12 - 1/3, 12 - 1/6, 12, 12 + 1/6, 12 + 1/3, 12 + 1/2] ∧
     (∀ c ∈ scan_window trivial_calc_chart trivial_transit_oracle 0 12 [] (1/2) 10,
       c.scoring_breakdown.dasha_correlation = 0 ∧
       c.scoring_breakdown.event_type_match = 0 ∧
       c.score = natal_contribution c.chart)) :=
  ⟨by norm_num, by norm_num,
    claim_c8_empty_scan trivial_calc_chart trivial_transit_oracle 0 12
      (by norm_num) (by norm_num)⟩

/-- C10: the derived Ketu placement always carries `retrograde = False` and
a daily motion that is the negation of Rahu's, while every directly queried
body's retrograde flag is the test `speed < 0`. -/
theorem claim_c10_ketu_retrograde (rahu : Luminosity) :
    (ketu_placement rahu).retrograde = false ∧
    (ketu_placement rahu).speed = -rahu.speed ∧
    (∀ lon lat speed : ℚ, (chart_placement lon lat speed).retrograde = decide (speed < 0)) :=
  ⟨rfl, rfl, fun _ _ _ => rfl⟩

end SkyAsGround
